import Mathlib

/-!
Shallow embedding of the gazelle structural-analysis engine (Rust) in Lean 4.

Numbers: `f64` is modelled by a linear ordered field `F` (instantiated at `ℚ`
or `ℝ` in concrete statements).  The `f64::sqrt` primitive is threaded through
the definitions that use it as an explicit function argument named `sqrt`
(instantiated at `Real.sqrt` where the real square root matters).  Scientific
literals (`1e12`, `1e-12`, ...) are written with Lean's scientific notation,
which denotes the same rational value.

External nalgebra routines (Cholesky/LU factorisations, SVD singular values,
symmetric eigen-decomposition) and the random start vector of power iteration
are not part of this repository; they are modelled by a `Backend` record of
abstract functions.  Everything else is translated from the source files
`core.rs`, `materials.rs`, `loads.rs`, `constraints.rs`, `elements.rs`,
`matrix.rs` and `solvers.rs`.

Rust `HashMap<usize, T>` containers are modelled as association lists
`List (ℕ × T)`; the solver only iterates over `values()` and looks entries up
by key, and no claim depends on iteration order.
-/

namespace Gazelle

/-- Errors from `error.rs` (`GazelleError`).  The IO / serialization / YAML /
Python variants only wrap external I/O machinery and are omitted; no engine
code path constructs them. -/
inductive GazelleError where
  | matrixError (msg : String)
  | invalidNodeId (id : ℕ)
  | invalidElementId (id : ℕ)
  | singularMatrix
  | convergenceFailure (iterations : ℕ)
  | invalidMaterial (property : String)
  | unsupportedElement (element_type : String)
  | validationError (msg : String)
  | notFound (msg : String)
deriving DecidableEq, Repr

/-- Degrees of freedom (`core.rs`, `enum Dof`). -/
inductive Dof where
  | Ux | Uy | Uz | Rx | Ry | Rz
deriving DecidableEq, Repr

/-- Element families (`core.rs`, `enum ElementType`). -/
inductive ElementType where
  | Truss2D | Truss3D | Beam2D | Beam3D | Frame2D | Frame3D | Plate | Shell | Solid
deriving DecidableEq, Repr

variable (F : Type)

/-- `core.rs` `struct DofConstraint`. -/
structure DofConstraint where
  dof : Dof
  value : F
  is_prescribed : Bool
deriving DecidableEq, Repr

/-- `core.rs` `struct Node`. -/
structure Node where
  id : ℕ
  x : F
  y : F
  z : F
  constraints : List (DofConstraint F)
deriving DecidableEq, Repr

/-- `core.rs` `struct ElementProperties`. -/
structure ElementProperties where
  area : Option F
  inertia_y : Option F
  inertia_z : Option F
  torsional_constant : Option F
  thickness : Option F
  width : Option F
  height : Option F
deriving DecidableEq, Repr

/-- `core.rs` `struct Element`. -/
structure Element where
  id : ℕ
  element_type : ElementType
  nodes : List ℕ
  material_id : ℕ
  properties : ElementProperties F
deriving DecidableEq, Repr

/-- `materials.rs` `enum MaterialType`. -/
inductive MaterialType where
  | LinearElastic | Plastic | Viscoelastic | Composite | NonlinearElastic
deriving DecidableEq, Repr

/-- `materials.rs` `struct MaterialProperties`.  The source fields
`poisson_ratio` and `damping_ratio` are named `poisson` and `damping` here. -/
structure MaterialProperties where
  young_modulus : Option F
  poisson : Option F
  density : Option F
  yield_strength : Option F
  ultimate_strength : Option F
  thermal_expansion : Option F
  damping : Option F
deriving DecidableEq, Repr

/-- `materials.rs` `struct Material`. -/
structure Material where
  id : ℕ
  name : String
  material_type : MaterialType
  properties : MaterialProperties F
deriving DecidableEq, Repr

/-- `loads.rs`: nalgebra `Vector3<f64>` payloads. -/
structure V3 where
  x : F
  y : F
  z : F
deriving DecidableEq, Repr

/-- `loads.rs` `enum LoadType`. -/
inductive LoadType where
  | NodalForce (node_id : ℕ) (dof : Dof) (magnitude : F)
  | Distributed (element_id : ℕ) (direction : V3 F) (magnitude : F)
  | Pressure (element_id : ℕ) (magnitude : F)
  | Thermal (element_id : ℕ) (temperature_change : F)
  | Gravity (acceleration : V3 F)
  | Seismic (acceleration_history : List (V3 F)) (time_step : F)
deriving DecidableEq, Repr

/-- `loads.rs` `struct Load`. -/
structure Load where
  id : ℕ
  load_type : LoadType F
  load_case : String
  factor : F
deriving DecidableEq, Repr

/-- `loads.rs` `Load::nodal_force` (via `Load::new`, `factor = 1.0`). -/
def Load.nodal_force {F : Type} [LinearOrderedField F] (id node_id : ℕ) (dof : Dof) (magnitude : F)
    (load_case : String) : Load F :=
  ⟨id, LoadType.NodalForce node_id dof magnitude, load_case, 1⟩

/-- `constraints.rs` `struct ConstraintTerm`. -/
structure ConstraintTerm where
  node_id : ℕ
  dof : Dof
  coefficient : F
deriving DecidableEq, Repr

/-- `constraints.rs` `enum ConstraintType`. -/
inductive ConstraintType where
  | NodalConstraint (node_id : ℕ) (constraints : List (Dof × F))
  | RigidLink (master_node : ℕ) (slave_nodes : List ℕ) (linked_dofs : List Dof)
  | EqualDisplacement (nodes : List ℕ) (dof : Dof)
  | Linear (terms : List (ConstraintTerm F)) (rhs : F)
deriving DecidableEq, Repr

/-- `constraints.rs` `struct Constraint`. -/
structure Constraint where
  id : ℕ
  constraint_type : ConstraintType F
deriving DecidableEq, Repr

/-- `constraints.rs` `Constraint::fixed_support`. -/
def Constraint.fixed_support {F : Type} [LinearOrderedField F] (id node_id : ℕ) : Constraint F :=
  ⟨id, ConstraintType.NodalConstraint node_id
    [(Dof.Ux, 0), (Dof.Uy, 0), (Dof.Uz, 0), (Dof.Rx, 0), (Dof.Ry, 0), (Dof.Rz, 0)]⟩

/-- `constraints.rs` `Constraint::pinned_support`. -/
def Constraint.pinned_support {F : Type} [LinearOrderedField F] (id node_id : ℕ) : Constraint F :=
  ⟨id, ConstraintType.NodalConstraint node_id [(Dof.Ux, 0), (Dof.Uy, 0), (Dof.Uz, 0)]⟩

/-- `constraints.rs` `Constraint::prescribed_displacement`. -/
def Constraint.prescribed_displacement {F : Type} [LinearOrderedField F] (id node_id : ℕ) (dof : Dof)
    (value : F) : Constraint F :=
  ⟨id, ConstraintType.NodalConstraint node_id [(dof, value)]⟩

/-- `core.rs` `enum AnalysisType`. -/
inductive AnalysisType where
  | Static | Modal | TimeHistory | Buckling | NonlinearStatic
deriving DecidableEq, Repr

/-- `core.rs` `enum SolverType`. -/
inductive SolverType where
  | Direct | Iterative | Sparse
deriving DecidableEq, Repr

/-- `core.rs` `struct AnalysisSettings`. -/
structure AnalysisSettings where
  tolerance : F
  max_iterations : ℕ
  solver_type : SolverType
  eigen_modes : Option ℕ
  time_step : Option F
  duration : Option F
deriving DecidableEq, Repr

/-- `core.rs` `impl Default for AnalysisSettings`. -/
def AnalysisSettings.default {F : Type} [LinearOrderedField F] : AnalysisSettings F :=
  ⟨1e-6, 100, SolverType.Direct, none, none, none⟩

/-- `core.rs` `struct ConvergenceInfo` (its `Default` derive zero-fills). -/
structure ConvergenceInfo where
  iterations : ℕ
  residual_norm : F
  converged : Bool
  tolerance : F
deriving DecidableEq, Repr

/-- Zero value produced by Rust's `ConvergenceInfo::default()`. -/
def ConvergenceInfo.zero {F : Type} [LinearOrderedField F] : ConvergenceInfo F := ⟨0, 0, false, 0⟩

/-- `core.rs` `struct ElementForces`. -/
structure ElementForces where
  axial : Option F
  shear_y : Option F
  shear_z : Option F
  moment_x : Option F
  moment_y : Option F
  moment_z : Option F
deriving DecidableEq, Repr

/-- `core.rs` `struct AnalysisResults` (`element_forces: HashMap` as an
association list). -/
structure AnalysisResults where
  displacements : List F
  reactions : List F
  element_forces : List (ℕ × ElementForces F)
  strain_energy : F
  analysis_type : AnalysisType
  convergence_info : ConvergenceInfo F
deriving DecidableEq, Repr

/-- `core.rs` `AnalysisResults::new`: note the unconditional
`strain_energy: 0.0`. -/
def AnalysisResults.new {F : Type} [LinearOrderedField F] (displacements reactions : List F)
    (analysis_type : AnalysisType) : AnalysisResults F :=
  ⟨displacements, reactions, [], 0, analysis_type, ConvergenceInfo.zero⟩

/-- `core.rs` `struct Model` (HashMaps as association lists). -/
structure Model where
  nodes : List (ℕ × Node F)
  elements : List (ℕ × Element F)
  materials : List (ℕ × Material F)
  loads : List (Load F)
  constraints : List (Constraint F)
  analysis_settings : AnalysisSettings F
deriving DecidableEq, Repr

variable {F}
variable [LinearOrderedField F]

/-- `core.rs` `Model::get_node`. -/
def Model.get_node (m : Model F) (id : ℕ) : Except GazelleError (Node F) :=
  match (m.nodes.lookup id) with
  | some n => Except.ok n
  | none => Except.error (GazelleError.invalidNodeId id)

/-- `core.rs` `Model::total_dofs` (`nodes.len() * 6`). -/
def Model.total_dofs (m : Model F) : ℕ := m.nodes.length * 6

/-- `core.rs` `Element::dofs_per_node`. -/
def Element.dofs_per_node (e : Element F) : ℕ :=
  match e.element_type with
  | ElementType.Truss2D => 2
  | ElementType.Truss3D => 3
  | ElementType.Beam2D => 3
  | ElementType.Beam3D => 6
  | ElementType.Frame2D => 3
  | ElementType.Frame3D => 6
  | ElementType.Plate => 3
  | ElementType.Shell => 6
  | ElementType.Solid => 3

/-- `core.rs` `Element::total_dofs`. -/
def Element.total_dofs (e : Element F) : ℕ := e.nodes.length * e.dofs_per_node

/-- `core.rs` `impl Validate for Node`: the source only rejects NaN
coordinates; NaN payloads do not exist in the idealised field, so the check
always passes here. -/
def Node.validate (_n : Node F) : Except GazelleError Unit := Except.ok ()

/-- `core.rs` `impl Validate for Element`. -/
def Element.validate (e : Element F) : Except GazelleError Unit :=
  if e.nodes.isEmpty then
    Except.error (GazelleError.validationError
      ("Element " ++ toString e.id ++ " has no nodes"))
  else
    let expected_nodes : ℕ :=
      match e.element_type with
      | ElementType.Truss2D | ElementType.Truss3D => 2
      | ElementType.Beam2D | ElementType.Beam3D => 2
      | ElementType.Frame2D | ElementType.Frame3D => 2
      | ElementType.Plate => 3
      | ElementType.Shell => 3
      | ElementType.Solid => 4
    if e.nodes.length ≠ expected_nodes then
      Except.error (GazelleError.validationError
        ("Element " ++ toString e.id ++ " has wrong node count"))
    else Except.ok ()

/-- `materials.rs` `impl Validate for Material` (LinearElastic arm; the other
material families skip validation in the source). -/
def Material.validate (m : Material F) : Except GazelleError Unit :=
  match m.material_type with
  | MaterialType.LinearElastic =>
    if m.properties.young_modulus.isNone then
      Except.error (GazelleError.invalidMaterial
        "Young's modulus is required for linear elastic materials")
    else if m.properties.poisson.isNone then
      Except.error (GazelleError.invalidMaterial
        "Poisson's ratio is required for linear elastic materials")
    else if ∃ e ∈ m.properties.young_modulus, e ≤ 0 then
      Except.error (GazelleError.invalidMaterial "Young's modulus must be positive")
    else if ∃ nu ∈ m.properties.poisson, nu < -1 ∨ 1/2 ≤ nu then
      Except.error (GazelleError.invalidMaterial
        "Poisson's ratio must be between -1 and 0.5")
    else if ∃ d ∈ m.properties.density, d ≤ 0 then
      Except.error (GazelleError.invalidMaterial "Density must be positive")
    else Except.ok ()
  | _ => Except.ok ()

/-- `materials.rs` `Material::shear_modulus`. -/
def Material.shear_modulus (m : Material F) : Except GazelleError F :=
  match m.properties.young_modulus with
  | none => Except.error (GazelleError.invalidMaterial "Young's modulus")
  | some e =>
    match m.properties.poisson with
    | none => Except.error (GazelleError.invalidMaterial "Poisson's ratio")
    | some nu => Except.ok (e / (2 * (1 + nu)))

/-- Helper mirroring a Rust `for x in xs { f(x)?; }` validation loop. -/
def forExcept {α : Type} (xs : List α) (f : α → Except GazelleError Unit) :
    Except GazelleError Unit :=
  match xs with
  | [] => Except.ok ()
  | x :: rest => do
    f x
    forExcept rest f

/-- `core.rs` `impl Validate for Model`. -/
def Model.validate (m : Model F) : Except GazelleError Unit := do
  forExcept m.nodes (fun p => p.2.validate)
  forExcept m.elements (fun p => p.2.validate)
  forExcept m.materials (fun p => p.2.validate)
  if m.nodes.isEmpty then
    Except.error (GazelleError.validationError "Model must have at least one node")
  else if m.elements.isEmpty then
    Except.error (GazelleError.validationError "Model must have at least one element")
  else Except.ok ()

/-! ### Dense matrices and vectors

nalgebra's `DMatrix<f64>` (row-major list of rows with explicit dimensions)
and `DVector<f64>` (plain list).  Out-of-range writes are no-ops of
`List.set`; the Rust code panics there, so theorems about in-range behaviour
carry the corresponding bound hypotheses. -/

structure Mat (F : Type) where
  nrows : ℕ
  ncols : ℕ
  data : List (List F)
deriving DecidableEq, Repr

/-- `DMatrix::zeros(n, m)`. -/
def Mat.zeros (n m : ℕ) : Mat F := ⟨n, m, List.replicate n (List.replicate m 0)⟩

/-- Matrix entry read `a[(i, j)]` (0 outside the stored data). -/
def Mat.get (a : Mat F) (i j : ℕ) : F := (a.data.getD i []).getD j 0

/-- Matrix entry write `a[(i, j)] = v`. -/
def Mat.set (a : Mat F) (i j : ℕ) (v : F) : Mat F :=
  ⟨a.nrows, a.ncols, a.data.set i ((a.data.getD i []).set j v)⟩

/-- Matrix entry update `a[(i, j)] += v`. -/
def Mat.addAt (a : Mat F) (i j : ℕ) (v : F) : Mat F := a.set i j (a.get i j + v)

/-- `a.transpose()`. -/
def Mat.transpose (a : Mat F) : Mat F :=
  ⟨a.ncols, a.nrows,
    (List.range a.ncols).map fun i => (List.range a.nrows).map fun j => a.get j i⟩

/-- Matrix product `a * b`. -/
def Mat.mul (a b : Mat F) : Mat F :=
  ⟨a.nrows, b.ncols,
    (List.range a.nrows).map fun i =>
      (List.range b.ncols).map fun j =>
        (List.range a.ncols).foldl (fun s k => s + a.get i k * b.get k j) 0⟩

/-- Vector entry read `v[i]`. -/
def vget (v : List F) (i : ℕ) : F := v.getD i 0

/-- Matrix–vector product `a * v`. -/
def Mat.mulVec (a : Mat F) (v : List F) : List F :=
  (List.range a.nrows).map fun i =>
    (List.range a.ncols).foldl (fun s j => s + a.get i j * vget v j) 0

/-- nalgebra dot product `u.dot(&v)`. -/
def dotV (u v : List F) : F := (u.zip v).foldl (fun s p => s + p.1 * p.2) 0

/-- Vector addition. -/
def addV (u v : List F) : List F := List.zipWith (fun a b => a + b) u v

/-- Vector subtraction. -/
def subV (u v : List F) : List F := List.zipWith (fun a b => a - b) u v

/-- Scalar times vector. -/
def smulV (c : F) (v : List F) : List F := v.map (fun a => c * a)

/-! ### Element formulation library (`elements.rs`)

Each Rust element struct implements the `ElementStiffness` trait; here every
trait method becomes a plain function in a namespace named after the struct.
`f64::sqrt` is passed in as `sqrt`. -/

/-- `elements.rs` `Truss2D::local_stiffness_matrix`.  Faithful to the source:
the axial terms are `E*A` with no division by the element length. -/
def Truss2D.local_stiffness_matrix (element : Element F) (material : Material F) :
    Except GazelleError (Mat F) :=
  match element.properties.area with
  | none => Except.error (GazelleError.invalidMaterial
      "Cross-sectional area required for truss element")
  | some area =>
    match material.properties.young_modulus with
    | none => Except.error (GazelleError.invalidMaterial "Young's modulus required")
    | some e =>
      let ea := e * area
      Except.ok ((((Mat.zeros 4 4).set 0 0 ea).set 0 2 (-ea)).set 2 0 (-ea) |>.set 2 2 ea)

/-- `elements.rs` `Truss2D::transformation_matrix`. -/
def Truss2D.transformation_matrix (sqrt : F → F) (nodes : List (Node F)) :
    Except GazelleError (Mat F) :=
  if nodes.length ≠ 2 then
    Except.error (GazelleError.validationError "Truss2D element requires exactly 2 nodes")
  else
    let node1 := nodes.getD 0 ⟨0, 0, 0, 0, []⟩
    let node2 := nodes.getD 1 ⟨0, 0, 0, 0, []⟩
    let dx := node2.x - node1.x
    let dy := node2.y - node1.y
    let length := sqrt (dx * dx + dy * dy)
    if length < 1e-12 then
      Except.error (GazelleError.validationError "Truss element has zero length")
    else
      let c := dx / length
      let s := dy / length
      Except.ok (((((((((Mat.zeros 4 4).set 0 0 c).set 0 1 s).set 1 0 (-s)).set 1 1 c).set
        2 2 c).set 2 3 s).set 3 2 (-s)).set 3 3 c)

/-- `elements.rs` `Truss2D::mass_matrix` (consistent mass, no length guard in
the source). -/
def Truss2D.mass_matrix (sqrt : F → F) (element : Element F) (material : Material F)
    (nodes : List (Node F)) : Except GazelleError (Mat F) :=
  match element.properties.area with
  | none => Except.error (GazelleError.invalidMaterial "Cross-sectional area required")
  | some area =>
    match material.properties.density with
    | none => Except.error (GazelleError.invalidMaterial "Material density required")
    | some density =>
      let node1 := nodes.getD 0 ⟨0, 0, 0, 0, []⟩
      let node2 := nodes.getD 1 ⟨0, 0, 0, 0, []⟩
      let dx := node2.x - node1.x
      let dy := node2.y - node1.y
      let length := sqrt (dx * dx + dy * dy)
      let mass := density * area * length
      Except.ok ((((((((Mat.zeros 4 4).set 0 0 (mass / 3)).set 0 2 (mass / 6)).set
        1 1 (mass / 3)).set 1 3 (mass / 6)).set 2 0 (mass / 6)).set 2 2 (mass / 3) |>.set
        3 1 (mass / 6)) |>.set 3 3 (mass / 3))

/-- `elements.rs` `Truss3D::local_stiffness_matrix`. -/
def Truss3D.local_stiffness_matrix (element : Element F) (material : Material F) :
    Except GazelleError (Mat F) :=
  match element.properties.area with
  | none => Except.error (GazelleError.invalidMaterial
      "Cross-sectional area required for truss element")
  | some area =>
    match material.properties.young_modulus with
    | none => Except.error (GazelleError.invalidMaterial "Young's modulus required")
    | some e =>
      let ea := e * area
      Except.ok ((((Mat.zeros 6 6).set 0 0 ea).set 0 3 (-ea)).set 3 0 (-ea) |>.set 3 3 ea)

/-- `elements.rs` `Truss3D::transformation_matrix`. -/
def Truss3D.transformation_matrix (sqrt : F → F) (nodes : List (Node F)) :
    Except GazelleError (Mat F) :=
  if nodes.length ≠ 2 then
    Except.error (GazelleError.validationError "Truss3D element requires exactly 2 nodes")
  else
    let node1 := nodes.getD 0 ⟨0, 0, 0, 0, []⟩
    let node2 := nodes.getD 1 ⟨0, 0, 0, 0, []⟩
    let dx := node2.x - node1.x
    let dy := node2.y - node1.y
    let dz := node2.z - node1.z
    let length := sqrt (dx * dx + dy * dy + dz * dz)
    if length < 1e-12 then
      Except.error (GazelleError.validationError "Truss element has zero length")
    else
      let l := dx / length
      let m := dy / length
      let n := dz / length
      Except.ok ((((((Mat.zeros 6 6).set 0 0 l).set 0 1 m).set 0 2 n).set 3 3 l).set
        3 4 m |>.set 3 5 n)

/-- `elements.rs` `Truss3D::mass_matrix`. -/
def Truss3D.mass_matrix (sqrt : F → F) (element : Element F) (material : Material F)
    (nodes : List (Node F)) : Except GazelleError (Mat F) :=
  match element.properties.area with
  | none => Except.error (GazelleError.invalidMaterial "Cross-sectional area required")
  | some area =>
    match material.properties.density with
    | none => Except.error (GazelleError.invalidMaterial "Material density required")
    | some density =>
      let node1 := nodes.getD 0 ⟨0, 0, 0, 0, []⟩
      let node2 := nodes.getD 1 ⟨0, 0, 0, 0, []⟩
      let dx := node2.x - node1.x
      let dy := node2.y - node1.y
      let dz := node2.z - node1.z
      let length := sqrt (dx * dx + dy * dy + dz * dz)
      let mass := density * area * length
      Except.ok ((List.range 3).foldl
        (fun m2 i => (((m2.set i i (mass / 3)).set (i + 3) (i + 3) (mass / 3)).set
          i (i + 3) (mass / 6)).set (i + 3) i (mass / 6))
        (Mat.zeros 6 6))

/-- `elements.rs` `Beam2D::local_stiffness_matrix`.  The source hardcodes
`let length = 1.0; // This is a placeholder` instead of using the node
geometry; that placeholder is kept.  The 6×6 matrix is written as one literal
whose entries are the source's individual assignments (unassigned entries are
the zeros of `DMatrix::zeros`). -/
def Beam2D.local_stiffness_matrix (element : Element F) (material : Material F) :
    Except GazelleError (Mat F) :=
  match element.properties.area with
  | none => Except.error (GazelleError.invalidMaterial "Cross-sectional area required")
  | some area =>
    match element.properties.inertia_z with
    | none => Except.error (GazelleError.invalidMaterial "Moment of inertia required")
    | some inertia =>
      match material.properties.young_modulus with
      | none => Except.error (GazelleError.invalidMaterial "Young's modulus required")
      | some e =>
        let length : F := 1
        let ea := e * area
        let ei := e * inertia
        let l := length
        let l2 := l * l
        let l3 := l2 * l
        Except.ok ⟨6, 6,
          [[ea / l, 0, 0, -ea / l, 0, 0],
           [0, 12 * ei / l3, 6 * ei / l2, 0, -12 * ei / l3, 6 * ei / l2],
           [0, 6 * ei / l2, 4 * ei / l, 0, -6 * ei / l2, 2 * ei / l],
           [-ea / l, 0, 0, ea / l, 0, 0],
           [0, -12 * ei / l3, -6 * ei / l2, 0, 12 * ei / l3, -6 * ei / l2],
           [0, 6 * ei / l2, 2 * ei / l, 0, -6 * ei / l2, 4 * ei / l]]⟩

/-- `elements.rs` `Beam2D::transformation_matrix`. -/
def Beam2D.transformation_matrix (sqrt : F → F) (nodes : List (Node F)) :
    Except GazelleError (Mat F) :=
  if nodes.length ≠ 2 then
    Except.error (GazelleError.validationError "Beam2D element requires exactly 2 nodes")
  else
    let node1 := nodes.getD 0 ⟨0, 0, 0, 0, []⟩
    let node2 := nodes.getD 1 ⟨0, 0, 0, 0, []⟩
    let dx := node2.x - node1.x
    let dy := node2.y - node1.y
    let length := sqrt (dx * dx + dy * dy)
    if length < 1e-12 then
      Except.error (GazelleError.validationError "Beam element has zero length")
    else
      let c := dx / length
      let s := dy / length
      Except.ok ⟨6, 6,
        [[c, s, 0, 0, 0, 0],
         [-s, c, 0, 0, 0, 0],
         [0, 0, 1, 0, 0, 0],
         [0, 0, 0, c, s, 0],
         [0, 0, 0, -s, c, 0],
         [0, 0, 0, 0, 0, 1]]⟩

/-- `elements.rs` `Beam2D::mass_matrix` (consistent 2-D beam mass matrix,
written as a literal of the source's assignments). -/
def Beam2D.mass_matrix (sqrt : F → F) (element : Element F) (material : Material F)
    (nodes : List (Node F)) : Except GazelleError (Mat F) :=
  match element.properties.area with
  | none => Except.error (GazelleError.invalidMaterial "Cross-sectional area required")
  | some area =>
    match material.properties.density with
    | none => Except.error (GazelleError.invalidMaterial "Material density required")
    | some density =>
      let node1 := nodes.getD 0 ⟨0, 0, 0, 0, []⟩
      let node2 := nodes.getD 1 ⟨0, 0, 0, 0, []⟩
      let dx := node2.x - node1.x
      let dy := node2.y - node1.y
      let length := sqrt (dx * dx + dy * dy)
      let tm := density * area * length
      let l := length
      Except.ok ⟨6, 6,
        [[tm / 3, 0, 0, tm / 6, 0, 0],
         [0, 13 * tm / 35, 11 * tm * l / 210, 0, 9 * tm / 70, -(13 * tm * l) / 420],
         [0, 11 * tm * l / 210, tm * l * l / 105, 0, 13 * tm * l / 420, -(tm * l * l) / 140],
         [tm / 6, 0, 0, tm / 3, 0, 0],
         [0, 9 * tm / 70, 13 * tm * l / 420, 0, 13 * tm / 35, -(11 * tm * l) / 210],
         [0, -(13 * tm * l) / 420, -(tm * l * l) / 140, 0, -(11 * tm * l) / 210,
          tm * l * l / 105]]⟩

/-- `elements.rs` `Frame3D::local_stiffness_matrix` (placeholder `length = 1.0`
kept from the source; literal rows reproduce the source assignments). -/
def Frame3D.local_stiffness_matrix (element : Element F) (material : Material F) :
    Except GazelleError (Mat F) :=
  match element.properties.area with
  | none => Except.error (GazelleError.invalidMaterial "Cross-sectional area required")
  | some area =>
    match element.properties.inertia_y with
    | none => Except.error (GazelleError.invalidMaterial
        "Moment of inertia about y-axis required")
    | some iy =>
      match element.properties.inertia_z with
      | none => Except.error (GazelleError.invalidMaterial
          "Moment of inertia about z-axis required")
      | some iz =>
        match element.properties.torsional_constant with
        | none => Except.error (GazelleError.invalidMaterial "Torsional constant required")
        | some j =>
          match material.properties.young_modulus with
          | none => Except.error (GazelleError.invalidMaterial "Young's modulus required")
          | some e => do
            let g ← material.shear_modulus
            let length : F := 1
            let l := length
            let l2 := l * l
            let l3 := l2 * l
            let ea_l := e * area / l
            let gj_l := g * j / l
            let ei_y := e * iy
            let ei_z := e * iz
            Except.ok ⟨12, 12,
              [[ea_l, 0, 0, 0, 0, 0, -ea_l, 0, 0, 0, 0, 0],
               [0, 12 * ei_z / l3, 0, 0, 0, -6 * ei_z / l2, 0, -12 * ei_z / l3, 0, 0, 0,
                -6 * ei_z / l2],
               [0, 0, 12 * ei_y / l3, 0, 6 * ei_y / l2, 0, 0, 0, -12 * ei_y / l3, 0,
                6 * ei_y / l2, 0],
               [0, 0, 0, gj_l, 0, 0, 0, 0, 0, -gj_l, 0, 0],
               [0, 0, 6 * ei_y / l2, 0, 4 * ei_y / l, 0, 0, 0, -6 * ei_y / l2, 0,
                2 * ei_y / l, 0],
               [0, -6 * ei_z / l2, 0, 0, 0, 4 * ei_z / l, 0, 6 * ei_z / l2, 0, 0, 0,
                2 * ei_z / l],
               [-ea_l, 0, 0, 0, 0, 0, ea_l, 0, 0, 0, 0, 0],
               [0, -12 * ei_z / l3, 0, 0, 0, 6 * ei_z / l2, 0, 12 * ei_z / l3, 0, 0, 0,
                6 * ei_z / l2],
               [0, 0, -12 * ei_y / l3, 0, -6 * ei_y / l2, 0, 0, 0, 12 * ei_y / l3, 0,
                -6 * ei_y / l2, 0],
               [0, 0, 0, -gj_l, 0, 0, 0, 0, 0, gj_l, 0, 0],
               [0, 0, 6 * ei_y / l2, 0, 2 * ei_y / l, 0, 0, 0, -6 * ei_y / l2, 0,
                4 * ei_y / l, 0],
               [0, -6 * ei_z / l2, 0, 0, 0, 2 * ei_z / l, 0, 6 * ei_z / l2, 0, 0, 0,
                4 * ei_z / l]]⟩

/-- Cross product of nalgebra `Vector3`s. -/
def V3.cross (a b : V3 F) : V3 F :=
  ⟨a.y * b.z - a.z * b.y, a.z * b.x - a.x * b.z, a.x * b.y - a.y * b.x⟩

/-- `Vector3::norm()`. -/
def V3.norm (sqrt : F → F) (a : V3 F) : F := sqrt (a.x * a.x + a.y * a.y + a.z * a.z)

/-- `Vector3::normalize_mut()` result (componentwise division by the norm). -/
def V3.normalize (sqrt : F → F) (a : V3 F) : V3 F :=
  let n := a.norm sqrt
  ⟨a.x / n, a.y / n, a.z / n⟩

/-- `elements.rs` `Frame3D::transformation_matrix`. -/
def Frame3D.transformation_matrix (sqrt : F → F) (nodes : List (Node F)) :
    Except GazelleError (Mat F) :=
  if nodes.length ≠ 2 then
    Except.error (GazelleError.validationError "Frame3D element requires exactly 2 nodes")
  else
    let node1 := nodes.getD 0 ⟨0, 0, 0, 0, []⟩
    let node2 := nodes.getD 1 ⟨0, 0, 0, 0, []⟩
    let dx := node2.x - node1.x
    let dy := node2.y - node1.y
    let dz := node2.z - node1.z
    let length := sqrt (dx * dx + dy * dy + dz * dz)
    if length < 1e-12 then
      Except.error (GazelleError.validationError "Frame element has zero length")
    else
      let x_local : V3 F := ⟨dx / length, dy / length, dz / length⟩
      let global_z : V3 F := ⟨0, 0, 1⟩
      let y0 := x_local.cross global_z
      let y1 := if y0.norm sqrt < 1e-6 then x_local.cross ⟨0, 1, 0⟩ else y0
      let y_local := y1.normalize sqrt
      let z_local := x_local.cross y_local
      let rotation : Mat F := ⟨3, 3,
        [[x_local.x, y_local.x, z_local.x],
         [x_local.y, y_local.y, z_local.y],
         [x_local.z, y_local.z, z_local.z]]⟩
      Except.ok ((List.range 4).foldl
        (fun t i => (List.range 3).foldl
          (fun t2 r => (List.range 3).foldl
            (fun t3 c => t3.set (i * 3 + r) (i * 3 + c) (rotation.get r c)) t2
            ) t)
        (Mat.zeros 12 12))

/-- `elements.rs` `Frame3D::mass_matrix` (lumped). -/
def Frame3D.mass_matrix (sqrt : F → F) (element : Element F) (material : Material F)
    (nodes : List (Node F)) : Except GazelleError (Mat F) :=
  match element.properties.area with
  | none => Except.error (GazelleError.invalidMaterial "Cross-sectional area required")
  | some area =>
    match material.properties.density with
    | none => Except.error (GazelleError.invalidMaterial "Material density required")
    | some density =>
      let node1 := nodes.getD 0 ⟨0, 0, 0, 0, []⟩
      let node2 := nodes.getD 1 ⟨0, 0, 0, 0, []⟩
      let dx := node2.x - node1.x
      let dy := node2.y - node1.y
      let dz := node2.z - node1.z
      let length := sqrt (dx * dx + dy * dy + dz * dz)
      let total_mass := density * area * length
      let node_mass := total_mass / 2
      let rotational_inertia := total_mass * length * length / 12
      let m0 := (List.range 3).foldl
        (fun m2 i => (m2.set i i node_mass).set (i + 6) (i + 6) node_mass)
        (Mat.zeros 12 12)
      Except.ok ((List.range' 3 3).foldl
        (fun m2 i => (m2.set i i rotational_inertia).set (i + 6) (i + 6) rotational_inertia)
        m0)

/-- The `ElementStiffness` trait's provided method `global_stiffness_matrix`:
`Tᵗ · K_local · T` from the two per-family methods. -/
def ElementStiffness.global_stiffness_matrix
    (local_stiffness : Element F → Material F → Except GazelleError (Mat F))
    (transformation : List (Node F) → Except GazelleError (Mat F))
    (element : Element F) (material : Material F) (nodes : List (Node F)) :
    Except GazelleError (Mat F) := do
  let k_local ← local_stiffness element material
  let t ← transformation nodes
  Except.ok ((t.transpose.mul k_local).mul t)

/-- `elements.rs`: the `PlateElement`, `ShellElement` and `SolidElement`
stubs fail every method with `UnsupportedElement`. -/
def unimplemented_element (kind : String) : Except GazelleError (Mat F) :=
  Except.error (GazelleError.unsupportedElement (kind ++ " elements not yet implemented"))

/-- `elements.rs` `ElementFactory::compute_stiffness_matrix`: dispatch on the
family tag (`create_element`) followed by `global_stiffness_matrix`. -/
def ElementFactory.compute_stiffness_matrix (sqrt : F → F) (element : Element F)
    (material : Material F) (nodes : List (Node F)) : Except GazelleError (Mat F) :=
  match element.element_type with
  | ElementType.Truss2D =>
    ElementStiffness.global_stiffness_matrix Truss2D.local_stiffness_matrix
      (Truss2D.transformation_matrix sqrt) element material nodes
  | ElementType.Truss3D =>
    ElementStiffness.global_stiffness_matrix Truss3D.local_stiffness_matrix
      (Truss3D.transformation_matrix sqrt) element material nodes
  | ElementType.Beam2D | ElementType.Frame2D =>
    ElementStiffness.global_stiffness_matrix Beam2D.local_stiffness_matrix
      (Beam2D.transformation_matrix sqrt) element material nodes
  | ElementType.Beam3D | ElementType.Frame3D =>
    ElementStiffness.global_stiffness_matrix Frame3D.local_stiffness_matrix
      (Frame3D.transformation_matrix sqrt) element material nodes
  | ElementType.Plate => unimplemented_element "Plate"
  | ElementType.Shell => unimplemented_element "Shell"
  | ElementType.Solid => unimplemented_element "Solid"

/-- `elements.rs` `ElementFactory::compute_mass_matrix`. -/
def ElementFactory.compute_mass_matrix (sqrt : F → F) (element : Element F)
    (material : Material F) (nodes : List (Node F)) : Except GazelleError (Mat F) :=
  match element.element_type with
  | ElementType.Truss2D => Truss2D.mass_matrix sqrt element material nodes
  | ElementType.Truss3D => Truss3D.mass_matrix sqrt element material nodes
  | ElementType.Beam2D | ElementType.Frame2D => Beam2D.mass_matrix sqrt element material nodes
  | ElementType.Beam3D | ElementType.Frame3D => Frame3D.mass_matrix sqrt element material nodes
  | ElementType.Plate => unimplemented_element "Plate"
  | ElementType.Shell => unimplemented_element "Shell"
  | ElementType.Solid => unimplemented_element "Solid"

/-! ### Linear algebra kernel (`matrix.rs`) -/

/-- External nalgebra routines used by `matrix.rs` (and the random start
vector of `power_iteration`), modelled as abstract functions:
`Cholesky::new` (a solver on success), `LU::new(..).solve`, SVD singular
values, `SymmetricEigen::new` (total in the source), `rand::random`. -/
structure Backend (F : Type) where
  cholesky : Mat F → Option (List F → List F)
  lu : Mat F → List F → Option (List F)
  svd_singular_values : Mat F → List F
  sym_eigen : Mat F → List F × Mat F
  random_vec : ℕ → List F

namespace MatrixOps

/-- `matrix.rs` `MatrixOps::is_symmetric` as the predicate decided by its
scan loop: dimensions agree and no strictly-upper pair differs by more than
the `1e-12` tolerance (the loop returns `false` exactly when some pair
violates this). -/
def is_symmetric (m : Mat F) : Prop :=
  m.nrows = m.ncols ∧
    ∀ i ∈ List.range m.nrows, ∀ j ∈ List.range' (i + 1) (m.ncols - (i + 1)),
      ¬ (1e-12 < |m.get i j - m.get j i|)

instance (m : Mat F) : Decidable (is_symmetric m) := by
  unfold is_symmetric; infer_instance

/-- `matrix.rs` `MatrixOps::is_positive_definite` (diagonal-only heuristic;
`diagonal()` has `min nrows ncols` entries). -/
def is_positive_definite (m : Mat F) : Prop :=
  ∀ i ∈ List.range (min m.nrows m.ncols), 0 < m.get i i

instance (m : Mat F) : Decidable (is_positive_definite m) := by
  unfold is_positive_definite; infer_instance

/-- `matrix.rs` `MatrixOps::solve_cholesky`. -/
def solve_cholesky (B : Backend F) (a : Mat F) (b : List F) :
    Except GazelleError (List F) :=
  match B.cholesky a with
  | some chol => Except.ok (chol b)
  | none => Except.error (GazelleError.matrixError
      "Cholesky decomposition failed - matrix may not be positive definite")

/-- `matrix.rs` `MatrixOps::solve_lu`. -/
def solve_lu (B : Backend F) (a : Mat F) (b : List F) : Except GazelleError (List F) :=
  match B.lu a b with
  | some x => Except.ok x
  | none => Except.error GazelleError.singularMatrix

/-- Loop body of `matrix.rs` `MatrixOps::conjugate_gradient`, with the
remaining iteration count as fuel.  Exact translation of one iteration:
`ap = a*p`, `alpha = rsold / p·ap`, `x += alpha*p`, `r -= alpha*ap`,
`rsnew = r·r`, return `x` once `rsnew.sqrt() < tolerance`, else
`p = r + (rsnew/rsold)*p`. -/
def cg_loop (sqrt : F → F) (a : Mat F) (tolerance : F) (max_iterations : ℕ) :
    ℕ → List F → List F → List F → F → Except GazelleError (List F)
  | 0, _x, _r, _p, _rsold =>
    Except.error (GazelleError.convergenceFailure max_iterations)
  | fuel + 1, x, r, p, rsold =>
    let ap := a.mulVec p
    let alpha := rsold / dotV p ap
    let x' := addV x (smulV alpha p)
    let r' := subV r (smulV alpha ap)
    let rsnew := dotV r' r'
    if sqrt rsnew < tolerance then Except.ok x'
    else cg_loop sqrt a tolerance max_iterations fuel x' r'
      (addV r' (smulV (rsnew / rsold) p)) rsnew

/-- `matrix.rs` `MatrixOps::conjugate_gradient`. -/
def conjugate_gradient (sqrt : F → F) (a : Mat F) (b : List F) (tolerance : F)
    (max_iterations : ℕ) : Except GazelleError (List F) :=
  let n := a.nrows
  let x : List F := List.replicate n 0
  let r := subV b (a.mulVec x)
  let p := r
  let rsold := dotV r r
  cg_loop sqrt a tolerance max_iterations max_iterations x r p rsold

/-- `matrix.rs` `MatrixOps::solve_iterative` (GMRES is a TODO in the source;
the non-SPD case falls back to LU). -/
def solve_iterative (sqrt : F → F) (B : Backend F) (a : Mat F) (b : List F) :
    Except GazelleError (List F) :=
  if is_symmetric a ∧ is_positive_definite a then
    conjugate_gradient sqrt a b 1e-10 1000
  else
    solve_lu B a b

/-- `matrix.rs` `MatrixOps::solve_linear_system`. -/
def solve_linear_system (sqrt : F → F) (B : Backend F) (a : Mat F) (b : List F) :
    Except GazelleError (List F) :=
  if a.nrows ≠ a.ncols then
    Except.error (GazelleError.matrixError
      "Matrix must be square for linear system solving")
  else if a.nrows ≠ b.length then
    Except.error (GazelleError.matrixError "Matrix and vector dimensions must match")
  else if is_symmetric a ∧ is_positive_definite a then
    solve_cholesky B a b
  else if a.nrows < 1000 then
    solve_lu B a b
  else
    solve_iterative sqrt B a b

/-- `matrix.rs` `MatrixOps::eigensolve_symmetric` (`SymmetricEigen::new` is
external and total). -/
def eigensolve_symmetric (B : Backend F) (a : Mat F) :
    Except GazelleError (List F × Mat F) :=
  if ¬ is_symmetric a then
    Except.error (GazelleError.matrixError "Matrix must be symmetric for symmetric eigensolve")
  else
    Except.ok (B.sym_eigen a)

/-- Euclidean norm of a vector (`DVector::norm()`): the square root of the
dot product with itself. -/
def normV (sqrt : F → F) (v : List F) : F := sqrt (dotV v v)

/-- `DVector::normalize()`. -/
def vnormalize (sqrt : F → F) (v : List F) : List F :=
  v.map (fun a => a / normV sqrt v)

/-- Loop body of `matrix.rs` `MatrixOps::power_iteration`. -/
def power_loop (sqrt : F → F) (a : Mat F) (tolerance : F) (max_iterations : ℕ) :
    ℕ → List F → F → Except GazelleError (F × List F)
  | 0, _v, _lambda =>
    Except.error (GazelleError.convergenceFailure max_iterations)
  | fuel + 1, v, lambda =>
    let av := a.mulVec v
    let lambda_new := dotV v av
    let v_new := vnormalize sqrt av
    if |lambda_new - lambda| < tolerance then Except.ok (lambda_new, v_new)
    else power_loop sqrt a tolerance max_iterations fuel v_new lambda_new

/-- `matrix.rs` `MatrixOps::power_iteration`; the random start vector comes
from the backend. -/
def power_iteration (sqrt : F → F) (B : Backend F) (a : Mat F) (tolerance : F)
    (max_iterations : ℕ) : Except GazelleError (F × List F) :=
  let v := vnormalize sqrt (B.random_vec a.nrows)
  power_loop sqrt a tolerance max_iterations max_iterations v 0

/-- `DMatrix::identity(n, n)`. -/
def identityM (n : ℕ) : Mat F :=
  ⟨n, n, (List.range n).map fun i => (List.range n).map fun j => if i = j then 1 else 0⟩

/-- Matrix scaled by a scalar. -/
def smulM (c : F) (a : Mat F) : Mat F :=
  ⟨a.nrows, a.ncols, a.data.map fun row => row.map fun v => c * v⟩

/-- Elementwise matrix difference. -/
def subM (a b : Mat F) : Mat F :=
  ⟨a.nrows, a.ncols,
    (List.range a.nrows).map fun i =>
      (List.range a.ncols).map fun j => a.get i j - b.get i j⟩

/-- `DMatrix::set_column`. -/
def set_column (m : Mat F) (c : ℕ) (v : List F) : Mat F :=
  (List.range m.nrows).foldl (fun m2 i => m2.set i c (vget v i)) m

/-- Mode loop of `matrix.rs` `MatrixOps::eigensolve_subset` (shifted inverse
power iteration; each mode shifts by the previous eigenvalue plus `1e-6`). -/
def eigensolve_subset_go (sqrt : F → F) (B : Backend F) (a : Mat F) (tolerance : F)
    (max_iterations : ℕ) : List ℕ → List F × Mat F →
    Except GazelleError (List F × Mat F)
  | [], acc => Except.ok acc
  | mode :: rest, acc => do
    let shift : F := if mode = 0 then 0 else vget acc.1 (mode - 1) + 1e-6
    let shifted_matrix := subM a (smulM shift (identityM a.nrows))
    let pr ← power_iteration sqrt B shifted_matrix tolerance max_iterations
    eigensolve_subset_go sqrt B a tolerance max_iterations rest
      (acc.1.set mode (pr.1 + shift), set_column acc.2 mode pr.2)

/-- `matrix.rs` `MatrixOps::eigensolve_subset`. -/
def eigensolve_subset (sqrt : F → F) (B : Backend F) (a : Mat F) (num_modes : ℕ)
    (tolerance : F) (max_iterations : ℕ) : Except GazelleError (List F × Mat F) :=
  eigensolve_subset_go sqrt B a tolerance max_iterations (List.range num_modes)
    (List.replicate num_modes 0, Mat.zeros a.nrows num_modes)

/-- `matrix.rs` `MatrixOps::add_element_matrix`: scatter-add of an element
matrix at the enumerated cross product of its DOF indices. -/
def add_element_matrix (global_k : Mat F) (element_k : Mat F) (dof_indices : List ℕ) :
    Mat F :=
  dof_indices.enum.foldl
    (fun g p =>
      dof_indices.enum.foldl
        (fun g2 q => g2.addAt p.2 q.2 (element_k.get p.1 q.1)) g)
    global_k

/-- `matrix.rs` `MatrixOps::assemble_parallel`: the parallel path performs the
same per-element scatter-adds as the sequential one, each under an exclusive
whole-matrix lock; element order does not affect the accumulated sums, so it
is modelled by the same fold. -/
def assemble_parallel (element_matrices : List (List ℕ × Mat F)) (num_dofs : ℕ) : Mat F :=
  element_matrices.foldl (fun g p => add_element_matrix g p.2 p.1)
    (Mat.zeros num_dofs num_dofs)

/-- `matrix.rs` `MatrixOps::assemble_global_stiffness`. -/
def assemble_global_stiffness (element_matrices : List (List ℕ × Mat F))
    (num_dofs : ℕ) : Mat F :=
  if element_matrices.length > 100 then
    assemble_parallel element_matrices num_dofs
  else
    element_matrices.foldl (fun g p => add_element_matrix g p.2 p.1)
      (Mat.zeros num_dofs num_dofs)

/-- Per-pair loop of `matrix.rs` `MatrixOps::apply_constraints`: range-check
the DOF, then `k[(dof,dof)] += 1e12` and `f[dof] += 1e12 * value`.  (On the
error path Rust leaves earlier in-place mutations in the caller's buffers;
here the error carries no state, and no claim concerns that path.) -/
def apply_constraints_go : List (ℕ × F) → Mat F → List F →
    Except GazelleError (Mat F × List F)
  | [], k, f => Except.ok (k, f)
  | (dof, value) :: rest, k, f =>
    if k.nrows ≤ dof then
      Except.error (GazelleError.validationError
        ("Constrained DOF " ++ toString dof ++ " exceeds matrix size"))
    else
      apply_constraints_go rest (k.addAt dof dof 1e12)
        (f.set dof (vget f dof + 1e12 * value))

/-- `matrix.rs` `MatrixOps::apply_constraints` (penalty method,
`penalty_factor = 1e12`). -/
def apply_constraints (k : Mat F) (f : List F) (constrained_dofs : List ℕ)
    (prescribed_values : List F) : Except GazelleError (Mat F × List F) :=
  if constrained_dofs.length ≠ prescribed_values.length then
    Except.error (GazelleError.validationError
      "Number of constrained DOFs must match prescribed values")
  else
    apply_constraints_go (constrained_dofs.zip prescribed_values) k f

/-- `matrix.rs` `MatrixOps::condition_number`; the SVD is external, and
`f64::INFINITY` is modelled by `⊤` in `WithTop F`. -/
def condition_number (B : Backend F) (matrix : Mat F) :
    Except GazelleError (WithTop F) :=
  let singular_values := B.svd_singular_values matrix
  if singular_values.length = 0 then
    Except.error (GazelleError.matrixError "SVD failed")
  else
    let max_sv := singular_values.max?.getD 0
    let min_sv := singular_values.min?.getD 0
    if min_sv < 1e-14 then Except.ok ⊤
    else Except.ok ((max_sv / min_sv : F) : WithTop F)

/-- `matrix.rs` `MatrixOps::residual_norm`: `(b - a*x).norm()`. -/
def residual_norm (sqrt : F → F) (a : Mat F) (x b : List F) : F :=
  normV sqrt (subV b (a.mulVec x))

/-- `matrix.rs` `MatrixOps::strain_energy`: `0.5 * u · (K u)`.  The static
solver never calls this function. -/
def strain_energy (stiffness : Mat F) (displacements : List F) : F :=
  1 / 2 * dotV displacements (stiffness.mulVec displacements)

end MatrixOps

/-! ### Static solver (`solvers.rs`) -/

/-- Generic `Vec<Result<T>>::collect::<Result<Vec<T>>>` helper: map a fallible
function over a list, stopping at the first error. -/
def mapE {α β : Type} (f : α → Except GazelleError β) :
    List α → Except GazelleError (List β)
  | [] => Except.ok []
  | a :: l => do
    let b ← f a
    let r ← mapE f l
    Except.ok (b :: r)

/-- The match that `solvers.rs` repeats inline in `calculate_active_dofs` and
`is_2d_problem`: families that force the 3-D numbering path. -/
def is_3d_family : ElementType → Bool
  | ElementType.Truss3D | ElementType.Beam3D | ElementType.Frame3D
  | ElementType.Shell | ElementType.Solid => true
  | _ => false

/-- `solvers.rs` `struct StaticSolver`. -/
structure StaticSolver (F : Type) where
  settings : AnalysisSettings F

/-- `solvers.rs` `StaticSolver::is_2d_problem`. -/
def StaticSolver.is_2d_problem (_s : StaticSolver F) (model : Model F) : Bool :=
  model.elements.all fun p => ¬ is_3d_family p.2.element_type

/-- `solvers.rs` `StaticSolver::max_dofs_per_node`. -/
def StaticSolver.max_dofs_per_node (_s : StaticSolver F) (model : Model F) : ℕ :=
  model.elements.foldl (fun m p => max m p.2.dofs_per_node) 0

/-- `HashSet<usize>` insert, modelled on a list. -/
def insertSet (l : List ℕ) (x : ℕ) : List ℕ := if x ∈ l then l else x :: l

/-- `solvers.rs` `StaticSolver::map_nodal_dof_traditional`
(`node_id * 6 + offset`). -/
def StaticSolver.map_nodal_dof_traditional (_s : StaticSolver F) (node_id : ℕ)
    (dof : Dof) : ℕ :=
  let dof_offset : ℕ :=
    match dof with
    | Dof.Ux => 0 | Dof.Uy => 1 | Dof.Uz => 2 | Dof.Rx => 3 | Dof.Ry => 4 | Dof.Rz => 5
  node_id * 6 + dof_offset

/-- `solvers.rs` `StaticSolver::map_nodal_dof`, used for loads and nodal
constraints.  Faithful to the source: it always returns
`node_id * 2 + dof_offset` (the comment there says it should match the
element mapping and carries a TODO). -/
def StaticSolver.map_nodal_dof (_s : StaticSolver F) (node_id : ℕ) (dof : Dof) : ℕ :=
  let dof_offset : ℕ :=
    match dof with
    | Dof.Ux => 0 | Dof.Uy => 1 | Dof.Uz => 2 | Dof.Rx => 3 | Dof.Ry => 4 | Dof.Rz => 5
  node_id * 2 + dof_offset

/-- `solvers.rs` `StaticSolver::calculate_active_dofs`. -/
def StaticSolver.calculate_active_dofs (s : StaticSolver F) (model : Model F) : ℕ :=
  let max_dofs_per_node :=
    model.elements.foldl (fun m p => max m p.2.dofs_per_node) 0
  let is_2d := model.elements.all fun p => ¬ is_3d_family p.2.element_type
  if is_2d ∧ max_dofs_per_node ≤ 3 then
    model.nodes.length * max_dofs_per_node
  else
    let active_dofs : List ℕ :=
      model.elements.foldl
        (fun acc p =>
          p.2.nodes.foldl
            (fun acc2 node_id =>
              (List.range p.2.dofs_per_node).foldl
                (fun acc3 local_dof => insertSet acc3 (node_id * 6 + local_dof)) acc2)
            acc)
        []
    let active_dofs :=
      model.loads.foldl
        (fun acc load =>
          match load.load_type with
          | LoadType.NodalForce node_id dof _ =>
            insertSet acc (s.map_nodal_dof_traditional node_id dof)
          | _ => acc)
        active_dofs
    let active_dofs :=
      model.constraints.foldl
        (fun acc c =>
          match c.constraint_type with
          | ConstraintType.NodalConstraint node_id constraints =>
            constraints.foldl
              (fun acc2 p => insertSet acc2 (s.map_nodal_dof_traditional node_id p.1))
              acc
          | _ => acc)
        active_dofs
    (active_dofs.max?.getD 0) + 1

/-- `solvers.rs` `StaticSolver::map_element_dofs_efficient`: compact
`node.id * max_dofs + local` numbering for 2-D models, `node.id * 6 + local`
otherwise. -/
def StaticSolver.map_element_dofs_efficient (s : StaticSolver F) (model : Model F)
    (element : Element F) (nodes : List (Node F)) : List ℕ :=
  let dofs_per_node := element.dofs_per_node
  let use_compact := s.is_2d_problem model
  nodes.foldl
    (fun acc node =>
      if use_compact ∧ dofs_per_node ≤ 3 then
        let max_dofs := s.max_dofs_per_node model
        acc ++ (List.range dofs_per_node).map fun local_dof => node.id * max_dofs + local_dof
      else
        acc ++ (List.range dofs_per_node).map fun local_dof => node.id * 6 + local_dof)
    []

/-- `solvers.rs` `StaticSolver::is_dof_active_for_model`. -/
def StaticSolver.is_dof_active_for_model (s : StaticSolver F) (model : Model F)
    (dof : Dof) : Bool :=
  let is_2d := s.is_2d_problem model
  let max_dofs := s.max_dofs_per_node model
  if is_2d ∧ max_dofs ≤ 2 then
    match dof with
    | Dof.Ux | Dof.Uy => true
    | _ => false
  else if is_2d ∧ max_dofs ≤ 3 then
    match dof with
    | Dof.Ux | Dof.Uy | Dof.Rz => true
    | _ => false
  else true

/-- `solvers.rs` `StaticSolver::map_nodal_dof_compact`.  Dead code in the
source (never called); kept because it documents the intended compact
nodal mapping. -/
def StaticSolver.map_nodal_dof_compact (s : StaticSolver F) (model : Model F)
    (node_id : ℕ) (dof : Dof) : ℕ :=
  if s.is_2d_problem model then
    let max_dofs := s.max_dofs_per_node model
    let dof_offset : ℕ :=
      match dof with
      | Dof.Ux => 0 | Dof.Uy => 1 | Dof.Uz => 2 | Dof.Rx => 3 | Dof.Ry => 4 | Dof.Rz => 5
    node_id * max_dofs + min dof_offset (max_dofs - 1)
  else
    s.map_nodal_dof_traditional node_id dof

/-- `solvers.rs` `StaticSolver::get_active_dofs_for_constraints` (element-used
DOFs; missing node ids are skipped by the source's `filter_map`). -/
def StaticSolver.get_active_dofs_for_constraints (s : StaticSolver F)
    (model : Model F) : List ℕ :=
  model.elements.foldl
    (fun acc p =>
      let element_nodes := p.2.nodes.filterMap fun id => model.nodes.lookup id
      (s.map_element_dofs_efficient model p.2 element_nodes).foldl insertSet acc)
    []

/-- Per-element body of `solvers.rs`
`StaticSolver::assemble_stiffness_matrix`: gather nodes and material, compute
the global element stiffness and its global DOF indices. -/
def StaticSolver.element_matrices (sqrt : F → F) (s : StaticSolver F) (model : Model F) :
    Except GazelleError (List (List ℕ × Mat F)) :=
  mapE
    (fun p => do
      let nodes ← mapE (fun id => model.get_node id) p.2.nodes
      let material ←
        match model.materials.lookup p.2.material_id with
        | some m => Except.ok m
        | none => Except.error (GazelleError.validationError
            ("Material " ++ toString p.2.material_id ++ " not found for element " ++
              toString p.2.id))
      let k_elem ← ElementFactory.compute_stiffness_matrix sqrt p.2 material nodes
      Except.ok (s.map_element_dofs_efficient model p.2 nodes, k_elem))
    model.elements

/-- `solvers.rs` `StaticSolver::assemble_stiffness_matrix`. -/
def StaticSolver.assemble_stiffness_matrix (sqrt : F → F) (s : StaticSolver F)
    (model : Model F) : Except GazelleError (Mat F) := do
  let total_dofs := s.calculate_active_dofs model
  let element_matrices ← StaticSolver.element_matrices sqrt s model
  Except.ok (MatrixOps.assemble_global_stiffness element_matrices total_dofs)

/-- Load loop of `solvers.rs` `StaticSolver::assemble_load_vector`.  Only
`NodalForce` contributes; `Distributed`, `Gravity` and the remaining variants
only log warnings in the source (TODOs) and leave the vector unchanged. -/
def StaticSolver.load_fold (s : StaticSolver F) (model : Model F) (total_dofs : ℕ) :
    List (Load F) → List F → Except GazelleError (List F)
  | [], f => Except.ok f
  | load :: rest, f =>
    match load.load_type with
    | LoadType.NodalForce node_id dof magnitude => do
      let _node ← model.get_node node_id
      let global_dof := s.map_nodal_dof node_id dof
      let f' :=
        if global_dof < total_dofs then
          f.set global_dof (vget f global_dof + magnitude * load.factor)
        else f
      StaticSolver.load_fold s model total_dofs rest f'
    | _ => StaticSolver.load_fold s model total_dofs rest f

/-- `solvers.rs` `StaticSolver::assemble_load_vector`. -/
def StaticSolver.assemble_load_vector (s : StaticSolver F) (model : Model F) :
    Except GazelleError (List F) :=
  let total_dofs := s.calculate_active_dofs model
  StaticSolver.load_fold s model total_dofs model.loads
    (List.replicate total_dofs 0)

/-- Collection loop of `solvers.rs` `StaticSolver::apply_constraints`: gather
`(global DOF, prescribed value)` pairs from direct nodal constraints,
skipping family-inactive DOFs and DOFs not touched by any element. -/
def StaticSolver.collect_constraints (s : StaticSolver F) (model : Model F)
    (active_dofs : List ℕ) (k : Mat F) : List (Constraint F) →
    List ℕ × List F → List ℕ × List F
  | [], acc => acc
  | c :: rest, acc =>
    match c.constraint_type with
    | ConstraintType.NodalConstraint node_id constraints =>
      let acc2 :=
        constraints.foldl
          (fun a p =>
            if ¬ s.is_dof_active_for_model model p.1 then a
            else
              let global_dof := s.map_nodal_dof node_id p.1
              if global_dof ∈ active_dofs ∧ global_dof < k.nrows then
                (a.1 ++ [global_dof], a.2 ++ [p.2])
              else a)
          acc
      StaticSolver.collect_constraints s model active_dofs k rest acc2
    | _ => StaticSolver.collect_constraints s model active_dofs k rest acc

/-- Connectivity test of `solvers.rs`
`StaticSolver::apply_automatic_constraints`: nonzero diagonal, or some
off-diagonal coupling in row or column `i`. -/
def StaticSolver.has_connection (k : Mat F) (i : ℕ) : Prop :=
  1e-12 < |k.get i i| ∨
    ∃ j ∈ List.range k.ncols, j ≠ i ∧ (1e-12 < |k.get i j| ∨ 1e-12 < |k.get j i|)

instance (k : Mat F) (i : ℕ) : Decidable (StaticSolver.has_connection k i) := by
  unfold StaticSolver.has_connection; infer_instance

/-- `solvers.rs` `StaticSolver::apply_automatic_constraints`: pin every
structurally unconnected DOF (`k[(i,i)] = 1e12`, `f[i] = 0`); later rows see
the earlier in-place updates.  The source always returns `Ok(())`. -/
def StaticSolver.apply_automatic_constraints (_s : StaticSolver F) (k : Mat F)
    (f : List F) : Except GazelleError (Mat F × List F) :=
  Except.ok ((List.range k.nrows).foldl
    (fun acc i =>
      if ¬ StaticSolver.has_connection acc.1 i then
        (acc.1.set i i 1e12, acc.2.set i 0)
      else acc)
    (k, f))

/-- `solvers.rs` `StaticSolver::apply_constraints` (the solver-level wrapper:
collect nodal constraints, apply the penalty method, then the automatic
singularity safety net). -/
def StaticSolver.apply_constraints (s : StaticSolver F) (model : Model F)
    (k : Mat F) (f : List F) : Except GazelleError (Mat F × List F) := do
  let active_dofs := s.get_active_dofs_for_constraints model
  let cv := StaticSolver.collect_constraints s model active_dofs k
    model.constraints ([], [])
  let kf ← MatrixOps.apply_constraints k f cv.1 cv.2
  s.apply_automatic_constraints kf.1 kf.2

/-- `solvers.rs` `impl Solver for StaticSolver`, `validate_model`. -/
def StaticSolver.validate_model (_s : StaticSolver F) (model : Model F) :
    Except GazelleError Unit := do
  model.validate
  let num_constraints :=
    (model.constraints.map fun c =>
      match c.constraint_type with
      | ConstraintType.NodalConstraint _ constraints => constraints.length
      | _ => 0).sum
  if num_constraints = 0 then
    Except.error (GazelleError.validationError
      "Model has no constraints - structure is unstable")
  else Except.ok ()

/-- The assembled-then-constrained system `(K, f)` that
`StaticSolver::solve` builds before factoring (named here to state the
reaction round-trip property). -/
def StaticSolver.constrained_system (sqrt : F → F) (s : StaticSolver F)
    (model : Model F) : Except GazelleError (Mat F × List F) := do
  let k ← StaticSolver.assemble_stiffness_matrix sqrt s model
  let f ← StaticSolver.assemble_load_vector s model
  StaticSolver.apply_constraints s model k f

/-- `solvers.rs` `impl Solver for StaticSolver`, `solve`: validate, assemble,
constrain, check conditioning (the `> 1e12` comparison only logs a warning),
solve by the configured solver family (`Sparse` falls back to direct with a
warning), then `reactions = K·u − f` on the constrained system. -/
def StaticSolver.solve (sqrt : F → F) (B : Backend F) (s : StaticSolver F)
    (model : Model F) : Except GazelleError (AnalysisResults F) := do
  s.validate_model model
  let k ← StaticSolver.assemble_stiffness_matrix sqrt s model
  let f ← StaticSolver.assemble_load_vector s model
  let kf ← StaticSolver.apply_constraints s model k f
  let k := kf.1
  let f := kf.2
  let _condition_number ← MatrixOps.condition_number B k
  let displacements ←
    match s.settings.solver_type with
    | SolverType.Direct => MatrixOps.solve_linear_system sqrt B k f
    | SolverType.Iterative => MatrixOps.solve_iterative sqrt B k f
    | SolverType.Sparse => MatrixOps.solve_linear_system sqrt B k f
  let reactions := subV (k.mulVec displacements) f
  let results := AnalysisResults.new displacements reactions AnalysisType.Static
  Except.ok { results with
    convergence_info :=
      ⟨1, MatrixOps.residual_norm sqrt k results.displacements f, true,
        s.settings.tolerance⟩ }

/-! ### Modal solver (`solvers.rs`).  The `f64` constant
`std::f64::consts::PI` is passed in as `pi` (claims instantiate it with
`Real.pi`), keeping the definitions field-generic like the rest. -/

/-- `solvers.rs` `struct ModalSolver`. -/
structure ModalSolver (F : Type) where
  settings : AnalysisSettings F
  num_modes : ℕ

/-- `solvers.rs` `ModalSolver::map_element_dofs`: always the traditional
`node.id * 6 + local` scheme, even where stiffness assembly used the compact
scheme. -/
def ModalSolver.map_element_dofs (_ms : ModalSolver F) (element : Element F)
    (nodes : List (Node F)) : List ℕ :=
  nodes.foldl
    (fun acc node =>
      acc ++ (List.range element.dofs_per_node).map fun local_dof =>
        node.id * 6 + local_dof)
    []

/-- `solvers.rs` `ModalSolver::assemble_mass_matrix`. -/
def ModalSolver.assemble_mass_matrix (sqrt : F → F) (ms : ModalSolver F)
    (model : Model F) : Except GazelleError (Mat F) := do
  let total_dofs := model.total_dofs
  let element_matrices ← mapE
    (fun p => do
      let nodes ← mapE (fun id => model.get_node id) p.2.nodes
      let material ←
        match model.materials.lookup p.2.material_id with
        | some m => Except.ok m
        | none => Except.error (GazelleError.validationError
            ("Material " ++ toString p.2.material_id ++ " not found"))
      let m_elem ← ElementFactory.compute_mass_matrix sqrt p.2 material nodes
      Except.ok (ms.map_element_dofs p.2 nodes, m_elem))
    model.elements
  Except.ok (MatrixOps.assemble_global_stiffness element_matrices total_dofs)

/-- `solvers.rs` `impl Solver for ModalSolver`, `validate_model`: every
material must carry a density. -/
def ModalSolver.validate_model (_ms : ModalSolver F) (model : Model F) :
    Except GazelleError Unit :=
  forExcept model.materials fun p =>
    if p.2.properties.density.isNone then
      Except.error (GazelleError.validationError
        ("Material " ++ toString p.2.id ++ " missing density for modal analysis"))
    else Except.ok ()

/-- `solvers.rs` `impl Solver for ModalSolver`, `solve`: assembles stiffness
and mass, but binds the mass matrix to `_m` and then solves the standard
symmetric eigenproblem on `K` alone; frequencies are
`if λ > 0 then √λ / (2π) else 0`, stored in the displacement slot. -/
def ModalSolver.solve (sqrt : F → F) (pi : F) (B : Backend F) (ms : ModalSolver F)
    (model : Model F) : Except GazelleError (AnalysisResults F) := do
  ms.validate_model model
  let static_solver : StaticSolver F := ⟨ms.settings⟩
  let k ← StaticSolver.assemble_stiffness_matrix sqrt static_solver model
  let _m ← ModalSolver.assemble_mass_matrix sqrt ms model
  let ev ←
    if k.nrows < 1000 then
      MatrixOps.eigensolve_symmetric B k
    else
      MatrixOps.eigensolve_subset sqrt B k ms.num_modes ms.settings.tolerance
        ms.settings.max_iterations
  let frequencies := ev.1.map fun lambda =>
    if 0 < lambda then sqrt lambda / (2 * pi) else 0
  let results := AnalysisResults.new frequencies
    (List.replicate ev.2.nrows 0) AnalysisType.Modal
  Except.ok { results with
    convergence_info := ⟨1, 0, true, ms.settings.tolerance⟩ }

/-! ### Auxiliary predicates and concrete fixtures used by the statements -/

/-- Shape invariant of the list representation: the stored data agrees with
the recorded dimensions (true of every matrix nalgebra hands around). -/
def Mat.WF (m : Mat F) : Prop :=
  m.data.length = m.nrows ∧ ∀ row ∈ m.data, row.length = m.ncols

/-- Entrywise symmetry of a matrix. -/
def Mat.Symmetric (m : Mat F) : Prop := ∀ i j, m.get i j = m.get j i

/-- A trivial backend over `ℚ` for concrete runs: Cholesky always "succeeds"
returning the zero displacement vector of the 4-DOF fixture below, LU always
fails, the SVD reports singular values `[1, 1]`. -/
def qBackend : Backend ℚ :=
  ⟨fun _ => some (fun _ => [0, 0, 0, 0]), fun _ _ => none, fun _ => [1, 1],
   fun _ => ([], Mat.zeros 0 0), fun _ => []⟩

/-- Concrete fixture: the two-node axial cantilever truss of
`tests/integration_tests.rs` with unit material data — node 0 at the origin
(prescribed `Ux = 0`), node 1 at `(1, 0)`, one `Truss2D` element
(`E = 1`, `A = 1`), and a unit tip force along `Ux`. -/
def cantileverModel : Model ℚ :=
  { nodes := [(0, ⟨0, 0, 0, 0, []⟩), (1, ⟨1, 1, 0, 0, []⟩)],
    elements := [(0, ⟨0, ElementType.Truss2D, [0, 1], 0,
      ⟨some 1, none, none, none, none, none, none⟩⟩)],
    materials := [(0, ⟨0, "steel", MaterialType.LinearElastic,
      ⟨some 1, some 0, none, none, none, none, none⟩⟩)],
    loads := [Load.nodal_force 0 1 Dof.Ux 1 "tip"],
    constraints := [Constraint.prescribed_displacement 0 0 Dof.Ux 0],
    analysis_settings := AnalysisSettings.default }

/-- Concrete fixture: a single 2-D beam model (3 DOFs per node), exercising
the compact numbering with `max_dofs = 3`. -/
def beamModel : Model ℚ :=
  { nodes := [(0, ⟨0, 0, 0, 0, []⟩), (1, ⟨1, 1, 0, 0, []⟩)],
    elements := [(0, ⟨0, ElementType.Beam2D, [0, 1], 0,
      ⟨some 1, none, some 1, none, none, none, none⟩⟩)],
    materials := [(0, ⟨0, "steel", MaterialType.LinearElastic,
      ⟨some 1, some 0, none, none, none, none, none⟩⟩)],
    loads := [],
    constraints := [],
    analysis_settings := AnalysisSettings.default }

/-- Concrete fixture family for modal analysis: a two-node unit truss whose
material density is the parameter `d`; two members differ exactly in their
assembled mass matrices. -/
def modalModel (d : F) : Model F :=
  { nodes := [(0, ⟨0, 0, 0, 0, []⟩), (1, ⟨1, 1, 0, 0, []⟩)],
    elements := [(0, ⟨0, ElementType.Truss2D, [0, 1], 0,
      ⟨some 1, none, none, none, none, none, none⟩⟩)],
    materials := [(0, ⟨0, "steel", MaterialType.LinearElastic,
      ⟨some 1, some 0, some d, none, none, none, none⟩⟩)],
    loads := [],
    constraints := [],
    analysis_settings := AnalysisSettings.default }

/-- The static solver with default settings used in concrete runs
(`StaticSolver::new`). -/
def qSolver : StaticSolver ℚ := ⟨AnalysisSettings.default⟩

/-- Global element stiffness matrix the code computes for the unit two-node
truss fixtures (`E = A = 1`, horizontal, length 1); also their assembled
global stiffness (4 active DOFs, single element scattered to `[0, 1, 2, 3]`). -/
def K4 : Mat F := ⟨4, 4, [[1, 0, -1, 0], [0, 0, 0, 0], [-1, 0, 1, 0], [0, 0, 0, 0]]⟩

/-- Constrained stiffness matrix of the cantilever run: penalty `1e12` added
at the prescribed DOF 0 and automatic pins (`k[(i, i)] = 1e12`) on the
structurally unconnected DOFs 1 and 3. -/
def Kc : Mat F := ⟨4, 4, [[1 + 1e12, 0, -1, 0], [0, 1e12, 0, 0],
  [-1, 0, 1, 0], [0, 0, 0, 1e12]]⟩

/-- A second trivial backend over `ℚ` whose "Cholesky" returns the nonzero
vector `[1, 0, 0, 0]`, exhibiting a solved run whose true `½·uᵀ·K·u` is
nonzero. -/
def qBackend2 : Backend ℚ :=
  ⟨fun _ => some (fun _ => [1, 0, 0, 0]), fun _ _ => none, fun _ => [1, 1],
   fun _ => ([], Mat.zeros 0 0), fun _ => []⟩

/-- Consistent mass matrix `Truss2D::mass_matrix` returns for the unit truss
with material density `d` (mass `ρ·A·L = d`). -/
def Mel (d : F) : Mat F :=
  ⟨4, 4, [[d / 3, 0, d / 6, 0], [0, d / 3, 0, d / 6],
    [d / 6, 0, d / 3, 0], [0, d / 6, 0, d / 3]]⟩

/-! ## Lemmas -/

@[simp]
theorem ok_bind {α β : Type} (a : α) (f : α → Except GazelleError β) :
    (Except.ok a >>= f) = f a := rfl

@[simp]
theorem error_bind {α β : Type} (e : GazelleError) (f : α → Except GazelleError β) :
    ((Except.error e : Except GazelleError α) >>= f) = Except.error e := rfl

@[simp]
theorem pure_eq_ok {α : Type} (a : α) : (pure a : Except GazelleError α) = Except.ok a := rfl

theorem bind_eq_ok_iff {α β : Type} {x : Except GazelleError α}
    {f : α → Except GazelleError β} {b : β} :
    x >>= f = Except.ok b ↔ ∃ a, x = Except.ok a ∧ f a = Except.ok b := by
  cases x with
  | ok a => simp
  | error e => simp

theorem list_getD_set_self {F : Type} [LinearOrderedField F] (l : List F) (i : ℕ) (v : F)
    (h : i < l.length) : (l.set i v).getD i 0 = v := by
  rw [List.getD_eq_getElem?_getD, List.getElem?_set_eq_of_lt v h, Option.getD_some]

theorem list_getD_set_ne {F : Type} [LinearOrderedField F] (l : List F) (i r : ℕ) (v : F)
    (h : i ≠ r) : (l.set i v).getD r 0 = l.getD r 0 := by
  rw [List.getD_eq_getElem?_getD, List.getElem?_set_ne h, ← List.getD_eq_getElem?_getD]

theorem range_two : List.range 2 = [0, 1] := rfl

theorem range_three : List.range 3 = [0, 1, 2] := rfl

theorem range_four : List.range 4 = [0, 1, 2, 3] := rfl

theorem range_six : List.range 6 = [0, 1, 2, 3, 4, 5] := rfl

variable {F : Type} [LinearOrderedField F]

@[simp]
theorem Mat.nrows_set (m : Mat F) (i j : ℕ) (v : F) : (m.set i j v).nrows = m.nrows := rfl

@[simp]
theorem Mat.ncols_set (m : Mat F) (i j : ℕ) (v : F) : (m.set i j v).ncols = m.ncols := rfl

@[simp]
theorem Mat.nrows_addAt (m : Mat F) (i j : ℕ) (v : F) : (m.addAt i j v).nrows = m.nrows := rfl

@[simp]
theorem Mat.ncols_addAt (m : Mat F) (i j : ℕ) (v : F) : (m.addAt i j v).ncols = m.ncols := rfl

@[simp]
theorem Mat.nrows_zeros (n m : ℕ) : (Mat.zeros n m : Mat F).nrows = n := rfl

@[simp]
theorem Mat.ncols_zeros (n m : ℕ) : (Mat.zeros n m : Mat F).ncols = m := rfl

theorem Mat.get_zeros (n m r c : ℕ) : (Mat.zeros n m : Mat F).get r c = 0 := by
  rw [Mat.zeros, Mat.get]
  have h1 : (List.replicate n (List.replicate m (0:F))).getD r [] =
      if r < n then List.replicate m 0 else [] := by
    rw [List.getD_eq_getElem?_getD, List.getElem?_replicate]
    split_ifs <;> rfl
  simp only at h1
  rw [h1]
  split_ifs with hr
  · rw [List.getD_eq_getElem?_getD, List.getElem?_replicate]
    split_ifs <;> rfl
  · rfl

theorem Mat.WF_zeros (n m : ℕ) : (Mat.zeros n m : Mat F).WF := by
  refine ⟨by simp [Mat.zeros], fun row h => ?_⟩
  rw [List.eq_of_mem_replicate h]
  simp [Mat.zeros]

theorem Mat.WF_set {m : Mat F} (h : m.WF) (i j : ℕ) (v : F) : (m.set i j v).WF := by
  obtain ⟨hlen, hrows⟩ := h
  by_cases hi : i < m.data.length
  · refine ⟨by simp [Mat.set, hlen], fun row hr => ?_⟩
    rcases List.mem_or_eq_of_mem_set hr with hmem | hEq
    · exact hrows row hmem
    · subst hEq
      rw [List.length_set]
      refine hrows _ ?_
      rw [List.getD_eq_getElem?_getD, List.getElem?_eq_getElem hi, Option.getD_some]
      exact List.getElem_mem hi
  · refine ⟨by simp [Mat.set, hlen], fun row hr => ?_⟩
    rw [Mat.set] at hr
    simp only at hr
    rw [List.set_eq_of_length_le (Nat.le_of_not_lt hi)] at hr
    exact hrows row hr

theorem Mat.WF_addAt {m : Mat F} (h : m.WF) (i j : ℕ) (v : F) : (m.addAt i j v).WF :=
  Mat.WF_set h i j _

/-- Reading after writing: `set` changes exactly the in-bounds target entry. -/
theorem Mat.get_set {m : Mat F} (h : m.WF) (i j r c : ℕ) (v : F) :
    (m.set i j v).get r c =
      if r = i ∧ c = j ∧ i < m.nrows ∧ j < m.ncols then v else m.get r c := by
  obtain ⟨hlen, hrows⟩ := h
  split_ifs with hc
  · obtain ⟨h1, h2, h3, h4⟩ := hc
    subst h1; subst h2
    have hlt : r < m.data.length := by rw [hlen]; exact h3
    have hrowlen : (m.data.getD r []).length = m.ncols := by
      rw [List.getD_eq_getElem?_getD, List.getElem?_eq_getElem hlt, Option.getD_some]
      exact hrows _ (List.getElem_mem hlt)
    show ((m.data.set r ((m.data.getD r []).set c v)).getD r []).getD c 0 = v
    rw [List.getD_eq_getElem?_getD _ _ [], List.getElem?_set_eq_of_lt _ hlt,
      Option.getD_some, list_getD_set_self _ _ _ (by rw [hrowlen]; exact h4)]
  · show ((m.data.set i ((m.data.getD i []).set j v)).getD r []).getD c 0 =
      (m.data.getD r []).getD c 0
    by_cases hri : r = i
    · subst hri
      by_cases hlt : r < m.data.length
      · have hrowlen : (m.data.getD r []).length = m.ncols := by
          rw [List.getD_eq_getElem?_getD, List.getElem?_eq_getElem hlt, Option.getD_some]
          exact hrows _ (List.getElem_mem hlt)
        rw [List.getD_eq_getElem?_getD _ _ [], List.getElem?_set_eq_of_lt _ hlt,
          Option.getD_some]
        by_cases hcj : c = j
        · subst hcj
          have hnc : ¬ c < m.ncols := fun hcc =>
            hc ⟨rfl, rfl, by rw [← hlen]; exact hlt, hcc⟩
          rw [List.set_eq_of_length_le
            (Nat.le_of_not_lt (by rw [hrowlen]; exact hnc))]
        · rw [list_getD_set_ne _ _ _ _ (fun hEq => hcj hEq.symm)]
      · rw [List.set_eq_of_length_le (Nat.le_of_not_lt hlt)]
    · rw [List.getD_eq_getElem?_getD _ _ [],
        List.getElem?_set_ne (fun hEq => hri hEq.symm), ← List.getD_eq_getElem?_getD]

/-- Reading after `+=`: `addAt` adds to exactly the in-bounds target entry. -/
theorem Mat.get_addAt {m : Mat F} (h : m.WF) (i j r c : ℕ) (v : F) :
    (m.addAt i j v).get r c =
      if r = i ∧ c = j ∧ i < m.nrows ∧ j < m.ncols then m.get r c + v
      else m.get r c := by
  rw [Mat.addAt, Mat.get_set h]
  split_ifs with hc
  · obtain ⟨h1, h2, -, -⟩ := hc
    subst h1; subst h2; rfl
  · rfl

/-- Exact effect of the `apply_constraints` loop on a success run: dimensions
are untouched, every listed `(dof, value)` pair receives exactly one `+1e12`
on the diagonal and `+1e12·value` on the load entry, and nothing else
changes.  (`Nodup` on the listed DOFs matches the per-DOF reading of the
claim.) -/
theorem apply_constraints_go_spec :
    ∀ (l : List (ℕ × F)) (k : Mat F) (f : List F) (k' : Mat F) (f' : List F),
      k.WF → k.nrows = k.ncols → f.length = k.nrows → (l.map Prod.fst).Nodup →
      MatrixOps.apply_constraints_go l k f = Except.ok (k', f') →
      k'.WF ∧ k'.nrows = k.nrows ∧ k'.ncols = k.ncols ∧ f'.length = f.length ∧
      (∀ p ∈ l, p.1 < k.nrows ∧
        k'.get p.1 p.1 = k.get p.1 p.1 + 1e12 ∧
        f'.getD p.1 0 = f.getD p.1 0 + 1e12 * p.2) ∧
      (∀ r c : ℕ, (¬ ∃ p ∈ l, p.1 = r ∧ r = c) → k'.get r c = k.get r c) ∧
      (∀ i : ℕ, (¬ ∃ p ∈ l, p.1 = i) → f'.getD i 0 = f.getD i 0) := by
  intro l
  induction l with
  | nil =>
    intro k f k' f' hWF _hsq _hf _hnd hok
    rw [MatrixOps.apply_constraints_go] at hok
    obtain ⟨hk, hf'⟩ : k = k' ∧ f = f' := by
      have := hok
      simp only [Except.ok.injEq, Prod.mk.injEq] at this
      exact this
    subst hk; subst hf'
    refine ⟨hWF, rfl, rfl, rfl, by simp, fun r c _ => rfl, fun i _ => rfl⟩
  | cons hd rest ih =>
    intro k f k' f' hWF hsq hf hnd hok
    obtain ⟨d, v⟩ := hd
    rw [MatrixOps.apply_constraints_go] at hok
    by_cases hdlt : k.nrows ≤ d
    · rw [if_pos hdlt] at hok
      exact absurd hok (by simp)
    · rw [if_neg hdlt] at hok
      have hdlt' : d < k.nrows := Nat.lt_of_not_le hdlt
      have hdc : d < k.ncols := hsq ▸ hdlt'
      have hfd : d < f.length := by rw [hf]; exact hdlt'
      simp only [List.map_cons, List.nodup_cons] at hnd
      obtain ⟨hdni, hndrest⟩ := hnd
      have hWF1 : (k.addAt d d 1e12).WF := Mat.WF_addAt hWF d d _
      have hf1 : (f.set d (vget f d + 1e12 * v)).length = (k.addAt d d 1e12).nrows := by
        rw [List.length_set, Mat.nrows_addAt, hf]
      obtain ⟨ihWF, ihnr, ihnc, ihfl, ihpairs, ihkeep, ihfkeep⟩ :=
        ih (k.addAt d d 1e12) (f.set d (vget f d + 1e12 * v)) k' f' hWF1 hsq hf1
          hndrest hok
      refine ⟨ihWF, by rw [ihnr, Mat.nrows_addAt], by rw [ihnc, Mat.ncols_addAt],
        by rw [ihfl, List.length_set], ?_, ?_, ?_⟩
      · intro p hp
        rcases List.mem_cons.mp hp with hEq | hmem
        · subst hEq
          refine ⟨hdlt', ?_, ?_⟩
          · have hkeep := ihkeep d d (by
              rintro ⟨q, hq, hq1, -⟩
              exact hdni (hq1 ▸ List.mem_map_of_mem Prod.fst hq))
            rw [hkeep, Mat.get_addAt hWF, if_pos ⟨rfl, rfl, hdlt', hdc⟩]
          · have hkeep := ihfkeep d (by
              rintro ⟨q, hq, hq1⟩
              exact hdni (hq1 ▸ List.mem_map_of_mem Prod.fst hq))
            rw [hkeep, list_getD_set_self _ _ _ hfd]
            rfl
        · have hne : p.1 ≠ d := fun hEq =>
            hdni (hEq ▸ List.mem_map_of_mem Prod.fst hmem)
          obtain ⟨hlt, hkk, hff⟩ := ihpairs p hmem
          refine ⟨by rw [← Mat.nrows_addAt k d d 1e12]; exact hlt, ?_, ?_⟩
          · rw [hkk, Mat.get_addAt hWF,
              if_neg (by rintro ⟨hcon, -, -, -⟩; exact hne hcon)]
          · rw [hff, list_getD_set_ne _ _ _ _ (fun hEq => hne hEq.symm)]
      · intro r c hno
        have hkeep := ihkeep r c (by
          rintro ⟨q, hq, hq1, hq2⟩
          exact hno ⟨q, List.mem_cons_of_mem _ hq, hq1, hq2⟩)
        rw [hkeep, Mat.get_addAt hWF]
        by_cases hcnd : r = d ∧ c = d ∧ d < k.nrows ∧ d < k.ncols
        · exact absurd ⟨(d, v), List.mem_cons_self _ _, hcnd.1.symm,
            hcnd.1.symm ▸ hcnd.2.1.symm ▸ rfl⟩ hno
        · rw [if_neg hcnd]
      · intro i hno
        have hkeep := ihfkeep i (by
          rintro ⟨q, hq, hq1⟩
          exact hno ⟨q, List.mem_cons_of_mem _ hq, hq1⟩)
        have hne : d ≠ i := fun hEq => hno ⟨(d, v), List.mem_cons_self _ _, hEq⟩
        rw [hkeep, list_getD_set_ne _ _ _ _ hne]

/-- C4: for every constrained DOF `d` with prescribed value `v` (listed once,
as the penalty loop applies one increment per list entry), a successful
`MatrixOps::apply_constraints` adds exactly `10¹² = 1e12` to the diagonal
entry `K[d,d]` and `10¹² · v` to the load entry `f[d]`, does not resize the
matrix or the load vector, and modifies no other stiffness or load entry. -/
theorem C4_apply_constraints_exact_penalty (k : Mat F) (f : List F) (dofs : List ℕ)
    (vals : List F) (k' : Mat F) (f' : List F) (hWF : k.WF)
    (hsq : k.nrows = k.ncols) (hf : f.length = k.nrows) (hnd : dofs.Nodup)
    (hok : MatrixOps.apply_constraints k f dofs vals = Except.ok (k', f')) :
    k'.nrows = k.nrows ∧ k'.ncols = k.ncols ∧ f'.length = f.length ∧
    (∀ p ∈ dofs.zip vals, p.1 < k.nrows ∧
      k'.get p.1 p.1 = k.get p.1 p.1 + 1e12 ∧
      f'.getD p.1 0 = f.getD p.1 0 + 1e12 * p.2) ∧
    (∀ r c : ℕ, ¬ (r = c ∧ r ∈ dofs) → k'.get r c = k.get r c) ∧
    (∀ i : ℕ, i ∉ dofs → f'.getD i 0 = f.getD i 0) := by
  rw [MatrixOps.apply_constraints] at hok
  by_cases hlen : dofs.length ≠ vals.length
  · rw [if_pos hlen] at hok
    exact absurd hok (by simp)
  · rw [if_neg hlen] at hok
    have hlen' : dofs.length = vals.length := not_ne_iff.mp hlen
    have hmapfst : (dofs.zip vals).map Prod.fst = dofs :=
      List.map_fst_zip dofs vals (le_of_eq hlen')
    obtain ⟨_, hnr, hnc, hfl, hpairs, hkeep, hfkeep⟩ :=
      apply_constraints_go_spec (dofs.zip vals) k f k' f' hWF hsq hf
        (by rw [hmapfst]; exact hnd) hok
    refine ⟨hnr, hnc, hfl, hpairs, ?_, ?_⟩
    · intro r c hno
      refine hkeep r c ?_
      rintro ⟨q, hq, hq1, hq2⟩
      exact hno ⟨hq2, by rw [← hq1, ← hmapfst]; exact List.mem_map_of_mem Prod.fst hq⟩
    · intro i hno
      refine hfkeep i ?_
      rintro ⟨q, hq, hq1⟩
      exact hno (by rw [← hq1, ← hmapfst]; exact List.mem_map_of_mem Prod.fst hq)

/-- Witness for C4: a concrete run on a `3 × 3` zero system with constrained
DOFs `[0, 2]` and prescribed values `[5, 7]`. -/
theorem C4_witness :
    (⟨3, 3, [[1e12, 0, 0], [0, 0, 0], [0, 0, 1e12]]⟩ : Mat ℚ).get 0 0 =
        (Mat.zeros 3 3 : Mat ℚ).get 0 0 + 1e12 ∧
      ([5e12, 0, 7e12] : List ℚ).getD 2 0 = ([0, 0, 0] : List ℚ).getD 2 0 + 1e12 * 7 ∧
      (⟨3, 3, [[1e12, 0, 0], [0, 0, 0], [0, 0, 1e12]]⟩ : Mat ℚ).get 1 1 =
        (Mat.zeros 3 3 : Mat ℚ).get 1 1 := by
  have hok : MatrixOps.apply_constraints (Mat.zeros 3 3 : Mat ℚ) [0, 0, 0] [0, 2] [5, 7] =
      Except.ok (⟨3, 3, [[1e12, 0, 0], [0, 0, 0], [0, 0, 1e12]]⟩, [5e12, 0, 7e12]) := by
    norm_num [MatrixOps.apply_constraints, MatrixOps.apply_constraints_go,
      Mat.zeros, Mat.addAt, Mat.set, Mat.get, vget, List.replicate]
  have hspec := C4_apply_constraints_exact_penalty (Mat.zeros 3 3 : Mat ℚ) [0, 0, 0]
    [0, 2] [5, 7] _ _ (Mat.WF_zeros 3 3) rfl rfl (by decide) hok
  refine ⟨?_, ?_, ?_⟩
  · exact (hspec.2.2.2.1 (0, 5) (by decide)).2.1
  · exact (hspec.2.2.2.1 (2, 7) (by decide)).2.2
  · exact hspec.2.2.2.2.1 1 1 (by decide)

theorem list_sum_map_add {β : Type} (l : List β) (f g : β → F) :
    (l.map fun x => f x + g x).sum = (l.map f).sum + (l.map g).sum := by
  induction l with
  | nil => simp
  | cons a l ih => simp [ih]; ring

theorem list_sum_swap {α β : Type} (l1 : List α) (l2 : List β) (h : α → β → F) :
    (l1.map fun p => (l2.map (h p)).sum).sum =
      (l2.map fun q => (l1.map fun p => h p q).sum).sum := by
  induction l1 with
  | nil => simp
  | cons a l ih =>
    simp only [List.map_cons, List.sum_cons, ih, ← list_sum_map_add]

theorem ite_sum_push {β : Type} (P : Prop) [Decidable P] (l : List β) (f : β → F) :
    (if P then (l.map f).sum else 0) = (l.map fun x => if P then f x else 0).sum := by
  by_cases hP : P <;> simp [hP]

/-- Row fold of `add_element_matrix` (the inner `for j` loop for a fixed
source row `i` and target row `gi`): dimensions and well-formedness are kept,
and entry `(r, c)` accumulates the in-bounds contributions that target it. -/
theorem addAt_inner_fold (e : Mat F) (i gi r c : ℕ) :
    ∀ (l : List (ℕ × ℕ)) (g : Mat F), g.WF →
      (l.foldl (fun g2 q => g2.addAt gi q.2 (e.get i q.1)) g).WF ∧
      (l.foldl (fun g2 q => g2.addAt gi q.2 (e.get i q.1)) g).nrows = g.nrows ∧
      (l.foldl (fun g2 q => g2.addAt gi q.2 (e.get i q.1)) g).ncols = g.ncols ∧
      (l.foldl (fun g2 q => g2.addAt gi q.2 (e.get i q.1)) g).get r c =
        g.get r c +
          if gi = r ∧ gi < g.nrows then
            (l.map fun q => if q.2 = c ∧ c < g.ncols then e.get i q.1 else 0).sum
          else 0 := by
  intro l
  induction l with
  | nil =>
    intro g hWF
    refine ⟨hWF, rfl, rfl, ?_⟩
    by_cases hP : gi = r ∧ gi < g.nrows <;> simp [hP]
  | cons q l ih =>
    intro g hWF
    obtain ⟨ihWF, ihnr, ihnc, ihget⟩ := ih (g.addAt gi q.2 (e.get i q.1))
      (Mat.WF_addAt hWF gi q.2 _)
    simp only [List.foldl_cons]
    refine ⟨ihWF, by rw [ihnr, Mat.nrows_addAt], by rw [ihnc, Mat.ncols_addAt], ?_⟩
    rw [ihget, Mat.nrows_addAt, Mat.ncols_addAt, Mat.get_addAt hWF, List.map_cons,
      List.sum_cons]
    by_cases hrow : gi = r ∧ gi < g.nrows
    · rw [if_pos hrow, if_pos hrow]
      by_cases hH : q.2 = c ∧ c < g.ncols
      · have hC1 : r = gi ∧ c = q.2 ∧ gi < g.nrows ∧ q.2 < g.ncols :=
          ⟨hrow.1.symm, hH.1.symm, hrow.2, hH.1 ▸ hH.2⟩
        rw [if_pos hC1, if_pos hH]
        ring
      · have hC1 : ¬ (r = gi ∧ c = q.2 ∧ gi < g.nrows ∧ q.2 < g.ncols) := by
          rintro ⟨-, h2, -, h4⟩
          exact hH ⟨h2.symm, h2 ▸ h4⟩
        rw [if_neg hC1, if_neg hH]
        ring
    · rw [if_neg hrow, if_neg hrow,
        if_neg (by rintro ⟨h1, -, h3, -⟩; exact hrow ⟨h1.symm, h3⟩)]

/-- Outer fold of `add_element_matrix` (the `for i` loop): closed form of the
assembled entry `(r, c)` as a double sum over the enumerated DOF pairs. -/
theorem addAt_outer_fold (e : Mat F) (inner : List (ℕ × ℕ)) (r c : ℕ) :
    ∀ (l : List (ℕ × ℕ)) (g : Mat F), g.WF →
      (l.foldl (fun g1 p =>
        inner.foldl (fun g2 q => g2.addAt p.2 q.2 (e.get p.1 q.1)) g1) g).WF ∧
      (l.foldl (fun g1 p =>
        inner.foldl (fun g2 q => g2.addAt p.2 q.2 (e.get p.1 q.1)) g1) g).nrows = g.nrows ∧
      (l.foldl (fun g1 p =>
        inner.foldl (fun g2 q => g2.addAt p.2 q.2 (e.get p.1 q.1)) g1) g).ncols = g.ncols ∧
      (l.foldl (fun g1 p =>
        inner.foldl (fun g2 q => g2.addAt p.2 q.2 (e.get p.1 q.1)) g1) g).get r c =
        g.get r c +
          (l.map fun p =>
            if p.2 = r ∧ p.2 < g.nrows then
              (inner.map fun q => if q.2 = c ∧ c < g.ncols then e.get p.1 q.1 else 0).sum
            else 0).sum := by
  intro l
  induction l with
  | nil =>
    intro g hWF
    exact ⟨hWF, rfl, rfl, by simp⟩
  | cons p l ih =>
    intro g hWF
    obtain ⟨hWF1, hnr1, hnc1, hget1⟩ := addAt_inner_fold e p.1 p.2 r c inner g hWF
    obtain ⟨ihWF, ihnr, ihnc, ihget⟩ :=
      ih (inner.foldl (fun g2 q => g2.addAt p.2 q.2 (e.get p.1 q.1)) g) hWF1
    simp only [List.foldl_cons]
    refine ⟨ihWF, by rw [ihnr, hnr1], by rw [ihnc, hnc1], ?_⟩
    rw [ihget, hnr1, hnc1, hget1, List.map_cons, List.sum_cons]
    have hswap : (if p.2 = r ∧ p.2 < g.nrows then
        (inner.map fun q => if q.2 = c ∧ c < g.ncols then e.get p.1 q.1 else 0).sum
        else 0) =
        (if p.2 = r ∧ p.2 < g.nrows then
          (inner.map fun q => if q.2 = c ∧ c < g.ncols then e.get p.1 q.1 else 0).sum
          else 0) := rfl
    ring

/-- Closed form for `MatrixOps::add_element_matrix`. -/
theorem add_element_matrix_get (g e : Mat F) (dofs : List ℕ) (hWF : g.WF) (r c : ℕ) :
    (MatrixOps.add_element_matrix g e dofs).get r c =
      g.get r c +
        (dofs.enum.map fun p =>
          if p.2 = r ∧ p.2 < g.nrows then
            (dofs.enum.map fun q =>
              if q.2 = c ∧ c < g.ncols then e.get p.1 q.1 else 0).sum
          else 0).sum :=
  (addAt_outer_fold e dofs.enum r c dofs.enum g hWF).2.2.2

theorem add_element_matrix_WF (g e : Mat F) (dofs : List ℕ) (hWF : g.WF) :
    (MatrixOps.add_element_matrix g e dofs).WF :=
  (addAt_outer_fold e dofs.enum 0 0 dofs.enum g hWF).1

theorem add_element_matrix_nrows (g e : Mat F) (dofs : List ℕ) (hWF : g.WF) :
    (MatrixOps.add_element_matrix g e dofs).nrows = g.nrows :=
  (addAt_outer_fold e dofs.enum 0 0 dofs.enum g hWF).2.1

theorem add_element_matrix_ncols (g e : Mat F) (dofs : List ℕ) (hWF : g.WF) :
    (MatrixOps.add_element_matrix g e dofs).ncols = g.ncols :=
  (addAt_outer_fold e dofs.enum 0 0 dofs.enum g hWF).2.2.1

/-- Scatter-adding a symmetric element matrix into a square symmetric global
matrix keeps it symmetric. -/
theorem add_element_matrix_symm {g e : Mat F} {dofs : List ℕ} (hWF : g.WF)
    (hsq : g.nrows = g.ncols) (hg : g.Symmetric) (he : e.Symmetric) :
    (MatrixOps.add_element_matrix g e dofs).Symmetric := by
  intro r c
  rw [add_element_matrix_get g e dofs hWF r c, add_element_matrix_get g e dofs hWF c r,
    hg r c]
  congr 1
  have hterm : ∀ (r c : ℕ), (dofs.enum.map fun p =>
      if p.2 = r ∧ p.2 < g.nrows then
        (dofs.enum.map fun q => if q.2 = c ∧ c < g.ncols then e.get p.1 q.1 else 0).sum
      else 0).sum =
      (dofs.enum.map fun p => (dofs.enum.map fun q =>
        if (p.2 = r ∧ r < g.nrows) ∧ (q.2 = c ∧ c < g.ncols) then e.get p.1 q.1
        else 0).sum).sum := by
    intro r c
    refine congrArg List.sum (List.map_congr_left fun p _hp => ?_)
    rw [ite_sum_push]
    refine congrArg List.sum (List.map_congr_left fun q _hq => ?_)
    by_cases h1 : p.2 = r ∧ p.2 < g.nrows
    · obtain ⟨hpr, hplt⟩ := h1
      subst hpr
      rw [if_pos ⟨rfl, hplt⟩]
      by_cases h2 : q.2 = c ∧ c < g.ncols
      · rw [if_pos h2, if_pos ⟨⟨rfl, hplt⟩, h2⟩]
      · rw [if_neg h2, if_neg (by rintro ⟨-, hcon⟩; exact h2 hcon)]
    · rw [if_neg h1,
        if_neg (by rintro ⟨⟨hc1, hc2⟩, -⟩; exact h1 ⟨hc1, hc1 ▸ hc2⟩)]
  rw [hterm r c, hterm c r, list_sum_swap]
  refine congrArg List.sum (List.map_congr_left fun q _hq => ?_)
  refine congrArg List.sum (List.map_congr_left fun p _hp => ?_)
  rw [he p.1 q.1]
  refine if_congr ?_ rfl rfl
  constructor
  · rintro ⟨h1, h2⟩
    exact ⟨by rw [← hsq] at h2; exact h2, by rw [hsq] at h1; exact h1⟩
  · rintro ⟨h1, h2⟩
    exact ⟨by rw [← hsq] at h2; exact h2, by rw [hsq] at h1; exact h1⟩

/-- Both branches of `assemble_global_stiffness` perform the same fold. -/
theorem assemble_global_stiffness_eq_fold (em : List (List ℕ × Mat F)) (n : ℕ) :
    MatrixOps.assemble_global_stiffness em n =
      em.foldl (fun g p => MatrixOps.add_element_matrix g p.2 p.1) (Mat.zeros n n) := by
  rw [MatrixOps.assemble_global_stiffness, MatrixOps.assemble_parallel]
  split_ifs <;> rfl

/-- C9: assembling any list of element contributions whose local matrices are
(entrywise) symmetric and square with side length equal to their DOF-index
lists yields a symmetric global stiffness matrix.  (The in-range hypothesis
on the DOF indices matches the runs on which the Rust code does not panic.) -/
theorem C9_assembly_preserves_symmetry (em : List (List ℕ × Mat F)) (num_dofs : ℕ)
    (hsym : ∀ p ∈ em, p.2.Symmetric ∧ p.2.nrows = p.1.length ∧ p.2.ncols = p.1.length)
    (hbound : ∀ p ∈ em, ∀ d ∈ p.1, d < num_dofs) :
    (MatrixOps.assemble_global_stiffness em num_dofs).Symmetric := by
  rw [assemble_global_stiffness_eq_fold]
  have main : ∀ (l : List (List ℕ × Mat F)) (g : Mat F), g.WF →
      g.nrows = g.ncols → g.Symmetric → (∀ p ∈ l, p.2.Symmetric) →
      (l.foldl (fun g p => MatrixOps.add_element_matrix g p.2 p.1) g).Symmetric := by
    intro l
    induction l with
    | nil => intro g _ _ hg _; exact hg
    | cons p l ih =>
      intro g hWF hsq hg hl
      simp only [List.foldl_cons]
      refine ih _ (add_element_matrix_WF g p.2 p.1 hWF) ?_
        (add_element_matrix_symm hWF hsq hg (hl p (List.mem_cons_self _ _)))
        (fun q hq => hl q (List.mem_cons_of_mem _ hq))
      rw [add_element_matrix_nrows g p.2 p.1 hWF, add_element_matrix_ncols g p.2 p.1 hWF,
        hsq]
  refine main em (Mat.zeros num_dofs num_dofs) (Mat.WF_zeros _ _) rfl ?_
    (fun p hp => (hsym p hp).1)
  intro r c
  rw [Mat.get_zeros, Mat.get_zeros]

/-- Witness for C9: two overlapping symmetric 2×2 contributions on 3 DOFs. -/
theorem C9_witness :
    (MatrixOps.assemble_global_stiffness
      [([0, 1], ⟨2, 2, [[1, 2], [2, 3]]⟩), ([1, 2], ⟨2, 2, [[5, 6], [6, 7]]⟩)]
      3 : Mat ℚ).Symmetric := by
  refine C9_assembly_preserves_symmetry _ 3 ?_ (by decide)
  intro p hp
  rcases List.mem_cons.mp hp with hq | hq
  · subst hq
    refine ⟨?_, rfl, rfl⟩
    intro i j
    match i, j with
    | 0, 0 => rfl
    | 0, 1 => rfl
    | 1, 0 => rfl
    | 1, 1 => rfl
    | 0, j + 2 => simp [Mat.get]
    | 1, j + 2 => simp [Mat.get]
    | i + 2, 0 => simp [Mat.get]
    | i + 2, 1 => simp [Mat.get]
    | i + 2, j + 2 => simp [Mat.get]
  · rw [List.mem_singleton.mp hq]
    refine ⟨?_, rfl, rfl⟩
    intro i j
    match i, j with
    | 0, 0 => rfl
    | 0, 1 => rfl
    | 1, 0 => rfl
    | 1, 1 => rfl
    | 0, j + 2 => simp [Mat.get]
    | 1, j + 2 => simp [Mat.get]
    | i + 2, 0 => simp [Mat.get]
    | i + 2, 1 => simp [Mat.get]
    | i + 2, j + 2 => simp [Mat.get]

theorem list_sum_map_mul_left {β : Type} (l : List β) (c : F) (f : β → F) :
    (l.map fun x => c * f x).sum = c * (l.map f).sum := by
  induction l with
  | nil => simp
  | cons a l ih => simp [ih]; ring

theorem foldl_add_eq_sum {β : Type} (l : List β) (f : β → F) :
    ∀ s0 : F, l.foldl (fun s j => s + f j) s0 = s0 + (l.map f).sum := by
  induction l with
  | nil => intro s0; simp
  | cons a l ih => intro s0; simp [ih]; ring

@[simp]
theorem length_subV (u v : List F) : (subV u v).length = min u.length v.length :=
  List.length_zipWith _ u v

@[simp]
theorem length_addV (u v : List F) : (addV u v).length = min u.length v.length :=
  List.length_zipWith _ u v

@[simp]
theorem length_smulV (c : F) (v : List F) : (smulV c v).length = v.length :=
  List.length_map v _

@[simp]
theorem length_mulVec (a : Mat F) (v : List F) : (a.mulVec v).length = a.nrows := by
  rw [Mat.mulVec, List.length_map, List.length_range]

theorem vget_smulV (c : F) (v : List F) (j : ℕ) :
    vget (smulV c v) j = c * vget v j := by
  rw [vget, vget, smulV, List.getD_eq_getElem?_getD, List.getElem?_map,
    List.getD_eq_getElem?_getD]
  cases v[j]? <;> simp

theorem vget_addV {u v : List F} (h : u.length = v.length) (j : ℕ) :
    vget (addV u v) j = vget u j + vget v j := by
  unfold vget addV
  rcases Nat.lt_or_ge j u.length with hj | hj
  · have hj' : j < v.length := h ▸ hj
    have hlen : j < (List.zipWith (fun a b => a + b) u v).length := by
      rw [List.length_zipWith]; omega
    rw [List.getD_eq_getElem?_getD, List.getElem?_eq_getElem hlen, Option.getD_some,
      List.getElem_zipWith,
      List.getD_eq_getElem?_getD, List.getElem?_eq_getElem hj, Option.getD_some,
      List.getD_eq_getElem?_getD, List.getElem?_eq_getElem hj', Option.getD_some]
  · have hj' : v.length ≤ j := h ▸ hj
    have hlen : (List.zipWith (fun a b : F => a + b) u v).length ≤ j := by
      rw [List.length_zipWith]; omega
    rw [List.getD_eq_getElem?_getD, List.getElem?_eq_none hlen,
      List.getD_eq_getElem?_getD, List.getElem?_eq_none hj,
      List.getD_eq_getElem?_getD, List.getElem?_eq_none hj']
    simp

theorem vget_subV {u v : List F} (h : u.length = v.length) (j : ℕ) :
    vget (subV u v) j = vget u j - vget v j := by
  unfold vget subV
  rcases Nat.lt_or_ge j u.length with hj | hj
  · have hj' : j < v.length := h ▸ hj
    have hlen : j < (List.zipWith (fun a b : F => a - b) u v).length := by
      rw [List.length_zipWith]; omega
    rw [List.getD_eq_getElem?_getD, List.getElem?_eq_getElem hlen, Option.getD_some,
      List.getElem_zipWith,
      List.getD_eq_getElem?_getD, List.getElem?_eq_getElem hj, Option.getD_some,
      List.getD_eq_getElem?_getD, List.getElem?_eq_getElem hj', Option.getD_some]
  · have hj' : v.length ≤ j := h ▸ hj
    have hlen : (List.zipWith (fun a b : F => a - b) u v).length ≤ j := by
      rw [List.length_zipWith]; omega
    rw [List.getD_eq_getElem?_getD, List.getElem?_eq_none hlen,
      List.getD_eq_getElem?_getD, List.getElem?_eq_none hj,
      List.getD_eq_getElem?_getD, List.getElem?_eq_none hj']
    simp

theorem vget_mulVec (a : Mat F) (v : List F) {i : ℕ} (hi : i < a.nrows) :
    vget (a.mulVec v) i = ((List.range a.ncols).map fun j => a.get i j * vget v j).sum := by
  unfold Mat.mulVec
  have hlen : i < ((List.range a.nrows).map fun i =>
      (List.range a.ncols).foldl (fun s j => s + a.get i j * vget v j) 0).length := by
    rw [List.length_map, List.length_range]; exact hi
  rw [vget, List.getD_eq_getElem?_getD, List.getElem?_eq_getElem hlen, Option.getD_some]
  simp only [List.getElem_map, List.getElem_range]
  rw [foldl_add_eq_sum, zero_add]

/-- `b − A(x + αp) = (b − Ax) − α(Ap)` at the list level: the conjugate
gradient update keeps `r` equal to the true residual in exact arithmetic. -/
theorem residual_step (a : Mat F) (b x p : List F) (alpha : F)
    (hsq : a.nrows = a.ncols) (hb : b.length = a.nrows)
    (hx : x.length = a.nrows) (hp : p.length = a.nrows) :
    subV (subV b (a.mulVec x)) (smulV alpha (a.mulVec p)) =
      subV b (a.mulVec (addV x (smulV alpha p))) := by
  refine List.ext_getElem (by simp [hb]) ?_
  intro i h1 h2
  have hin : i < a.nrows := by
    simp only [length_subV, length_smulV, length_mulVec] at h1
    omega
  have hget : ∀ (l : List F) (hl : i < l.length), l[i] = vget l i := by
    intro l hl
    rw [vget, List.getD_eq_getElem?_getD, List.getElem?_eq_getElem hl, Option.getD_some]
  rw [hget _ h1, hget _ h2,
    vget_subV (by simp [hb]),
    vget_subV (by simp [hb]),
    vget_subV (by simp [hb]),
    vget_smulV, vget_mulVec a x hin, vget_mulVec a p hin,
    vget_mulVec a _ hin]
  have hxp : x.length = (smulV alpha p).length := by simp [hx, hp]
  have hterm : ((List.range a.ncols).map fun j =>
      a.get i j * vget (addV x (smulV alpha p)) j).sum =
      ((List.range a.ncols).map fun j => a.get i j * vget x j).sum +
        alpha * ((List.range a.ncols).map fun j => a.get i j * vget p j).sum := by
    rw [← list_sum_map_mul_left, ← list_sum_map_add]
    refine congrArg List.sum (List.map_congr_left fun j _hj => ?_)
    rw [vget_addV hxp, vget_smulV]
    ring
  rw [hterm]
  ring

/-- A success of the `conjugate_gradient` loop always carries a residual norm
below the tolerance, and its only error is `ConvergenceFailure` with the
original iteration budget. -/
theorem cg_loop_spec (a : Mat ℝ) (b : List ℝ) (tol : ℝ) (maxIter : ℕ)
    (hsq : a.nrows = a.ncols) (hb : b.length = a.nrows) :
    ∀ (fuel : ℕ) (x r p : List ℝ) (rsold : ℝ),
      x.length = a.nrows → p.length = a.nrows →
      r = subV b (a.mulVec x) →
      (∀ e, MatrixOps.cg_loop Real.sqrt a tol maxIter fuel x r p rsold =
          Except.error e → e = GazelleError.convergenceFailure maxIter) ∧
      (∀ x', MatrixOps.cg_loop Real.sqrt a tol maxIter fuel x r p rsold =
          Except.ok x' → MatrixOps.residual_norm Real.sqrt a x' b < tol) := by
  intro fuel
  induction fuel with
  | zero =>
    intro x r p rsold _hx _hp _hr
    constructor
    · intro e he
      rw [MatrixOps.cg_loop] at he
      simp only [Except.error.injEq] at he
      rw [← he]
    · intro x' hx'
      rw [MatrixOps.cg_loop] at hx'
      exact absurd hx' (by simp)
  | succ fuel ih =>
    intro x r p rsold hx hp hr
    have hresid : subV r (smulV (rsold / dotV p (a.mulVec p)) (a.mulVec p)) =
        subV b (a.mulVec (addV x (smulV (rsold / dotV p (a.mulVec p)) p))) := by
      rw [hr]
      exact residual_step a b x p _ hsq hb hx hp
    have hx'len : (addV x (smulV (rsold / dotV p (a.mulVec p)) p)).length = a.nrows := by
      simp [hx, hp]
    have hr'len : (subV r (smulV (rsold / dotV p (a.mulVec p)) (a.mulVec p))).length
        = a.nrows := by
      rw [hr]; simp [hb]
    have hp'len : (addV (subV r (smulV (rsold / dotV p (a.mulVec p)) (a.mulVec p)))
        (smulV (dotV (subV r (smulV (rsold / dotV p (a.mulVec p)) (a.mulVec p)))
            (subV r (smulV (rsold / dotV p (a.mulVec p)) (a.mulVec p))) / rsold)
          p)).length = a.nrows := by
      simp only [length_addV, length_smulV, hr'len, hp, Nat.min_self]
    constructor
    · intro e he
      simp only [MatrixOps.cg_loop] at he
      by_cases hconv : Real.sqrt (dotV
          (subV r (smulV (rsold / dotV p (a.mulVec p)) (a.mulVec p)))
          (subV r (smulV (rsold / dotV p (a.mulVec p)) (a.mulVec p)))) < tol
      · rw [if_pos hconv] at he
        exact absurd he (by simp)
      · rw [if_neg hconv] at he
        exact (ih _ _ _ _ hx'len hp'len hresid).1 e he
    · intro x' hok
      simp only [MatrixOps.cg_loop] at hok
      by_cases hconv : Real.sqrt (dotV
          (subV r (smulV (rsold / dotV p (a.mulVec p)) (a.mulVec p)))
          (subV r (smulV (rsold / dotV p (a.mulVec p)) (a.mulVec p)))) < tol
      · rw [if_pos hconv] at hok
        simp only [Except.ok.injEq] at hok
        subst hok
        rw [MatrixOps.residual_norm, MatrixOps.normV, ← hresid]
        exact hconv
      · rw [if_neg hconv] at hok
        exact (ih _ _ _ _ hx'len hp'len hresid).2 x' hok

/-- C5: on a square system with matching dimensions (in particular every
symmetric positive definite one), `MatrixOps::conjugate_gradient` either
fails with the `ConvergenceFailure {max_iterations}` error, or returns a
solution whose residual norm `‖b − A·x‖` is strictly below the tolerance —
never a partially converged result. -/
theorem C5_conjugate_gradient_no_partial_result (a : Mat ℝ) (b : List ℝ) (tol : ℝ)
    (maxIter : ℕ) (hsq : a.nrows = a.ncols) (hb : b.length = a.nrows) :
    (∀ e, MatrixOps.conjugate_gradient Real.sqrt a b tol maxIter = Except.error e →
      e = GazelleError.convergenceFailure maxIter) ∧
    (∀ x, MatrixOps.conjugate_gradient Real.sqrt a b tol maxIter = Except.ok x →
      MatrixOps.residual_norm Real.sqrt a x b < tol) := by
  rw [MatrixOps.conjugate_gradient]
  have hx0 : (List.replicate a.nrows (0:ℝ)).length = a.nrows := by simp
  have hp0 : (subV b (a.mulVec (List.replicate a.nrows (0:ℝ)))).length = a.nrows := by
    simp [hb]
  exact cg_loop_spec a b tol maxIter hsq hb maxIter _ _ _ _ hx0 hp0 rfl

/-- Witness for C5: the 1×1 system `[1]·x = [1]` with tolerance `1/2`
converges in one iteration to `[1]`, and the theorem bounds its residual. -/
theorem C5_witness :
    MatrixOps.residual_norm Real.sqrt (⟨1, 1, [[1]]⟩ : Mat ℝ) [1] [1] < 1 / 2 := by
  have hok : MatrixOps.conjugate_gradient Real.sqrt (⟨1, 1, [[1]]⟩ : Mat ℝ) [1] (1 / 2) 1 =
      Except.ok [1] := by
    rw [MatrixOps.conjugate_gradient]
    norm_num [MatrixOps.cg_loop, Mat.mulVec, Mat.get, dotV, subV, addV, smulV, vget,
      List.range_succ, Real.sqrt_zero]
  exact (C5_conjugate_gradient_no_partial_result (⟨1, 1, [[1]]⟩ : Mat ℝ) [1] (1 / 2) 1
    rfl rfl).2 [1] hok

/-- C1 (code evidence): for a horizontal 2-node `Truss2D` element of any
length `L ≥ 1e-12` with Young's modulus `e` and area `a`, the global element
stiffness matrix the code computes has axial coupling `e·a` — independent of
`L` — in all four axial slots, because `Truss2D::local_stiffness_matrix`
never divides by the element length.  The spec's `EA/L` coupling (hence the
tip displacement `P·L/(A·E)`) only agrees with this at `L = 1`. -/
theorem C1_truss_coupling_is_EA_not_EA_over_L (e a L : ℝ) (hL : 1e-12 ≤ L) :
    ElementFactory.compute_stiffness_matrix Real.sqrt
      (⟨0, ElementType.Truss2D, [0, 1], 0, ⟨some a, none, none, none, none, none, none⟩⟩)
      (⟨0, "m", MaterialType.LinearElastic,
        ⟨some e, some 0, none, none, none, none, none⟩⟩)
      [⟨0, 0, 0, 0, []⟩, ⟨1, L, 0, 0, []⟩] =
    Except.ok ⟨4, 4, [[e * a, 0, -(e * a), 0], [0, 0, 0, 0],
      [-(e * a), 0, e * a, 0], [0, 0, 0, 0]]⟩ := by
  have hLpos : (0:ℝ) < L := lt_of_lt_of_le (by norm_num) hL
  have hlen : Real.sqrt (L * L) = L := Real.sqrt_mul_self hLpos.le
  have hnl : ¬ L < 1e-12 := not_lt.mpr hL
  have htrans : Truss2D.transformation_matrix Real.sqrt
      [(⟨0, 0, 0, 0, []⟩ : Node ℝ), ⟨1, L, 0, 0, []⟩] =
      Except.ok ⟨4, 4, [[1, 0, 0, 0], [0, 1, 0, 0], [0, 0, 1, 0], [0, 0, 0, 1]]⟩ := by
    simp only [Truss2D.transformation_matrix]
    simp
    simp only [hlen]
    rw [if_neg hnl]
    norm_num [Mat.zeros, Mat.set, List.replicate, div_self hLpos.ne']
  have hloc : Truss2D.local_stiffness_matrix
      (⟨0, ElementType.Truss2D, [0, 1], 0,
        ⟨some a, none, none, none, none, none, none⟩⟩ : Element ℝ)
      (⟨0, "m", MaterialType.LinearElastic,
        ⟨some e, some 0, none, none, none, none, none⟩⟩) =
      Except.ok ⟨4, 4, [[e * a, 0, -(e * a), 0], [0, 0, 0, 0],
        [-(e * a), 0, e * a, 0], [0, 0, 0, 0]]⟩ := by
    simp only [Truss2D.local_stiffness_matrix]
    norm_num [Mat.zeros, Mat.set, List.replicate]
  rw [ElementFactory.compute_stiffness_matrix]
  simp only [ElementStiffness.global_stiffness_matrix, htrans, hloc, ok_bind]
  norm_num [Mat.mul, Mat.transpose, Mat.get, range_four]

/-- Witness for C1's hypothesis at the concrete length `L = 2` (where the
spec's `EA/L` would halve the coupling, the code still returns `e·a = 6`). -/
theorem C1_witness :
    ElementFactory.compute_stiffness_matrix Real.sqrt
      (⟨0, ElementType.Truss2D, [0, 1], 0, ⟨some 3, none, none, none, none, none, none⟩⟩)
      (⟨0, "m", MaterialType.LinearElastic,
        ⟨some 2, some 0, none, none, none, none, none⟩⟩)
      [⟨0, 0, 0, 0, []⟩, ⟨1, 2, 0, 0, []⟩] =
    Except.ok ⟨4, 4, [[2 * 3, 0, -(2 * 3), 0], [0, 0, 0, 0],
      [-(2 * 3), 0, 2 * 3, 0], [0, 0, 0, 0]]⟩ :=
  C1_truss_coupling_is_EA_not_EA_over_L 2 3 2 (by norm_num)

/-- C8: a 2-node line element (truss or beam) whose nodes are closer than
`1e-12` apart (as measured by the code's `sqrt(dx²+dy²)`) makes the global
stiffness computation fail with the zero-length `ValidationError` — provided
the element and material carry the properties the local-stiffness step needs
first (area and Young's modulus, plus bending inertia for the beam). -/
theorem C8_zero_length_element_is_validation_error (element : Element ℝ)
    (material : Material ℝ) (n1 n2 : Node ℝ) (aV eV iV : ℝ)
    (harea : element.properties.area = some aV)
    (hyoung : material.properties.young_modulus = some eV)
    (hinertia : element.properties.inertia_z = some iV)
    (hdist : Real.sqrt ((n2.x - n1.x) * (n2.x - n1.x) +
      (n2.y - n1.y) * (n2.y - n1.y)) < 1e-12) :
    (element.element_type = ElementType.Truss2D →
      ElementFactory.compute_stiffness_matrix Real.sqrt element material [n1, n2] =
        Except.error (GazelleError.validationError "Truss element has zero length")) ∧
    (element.element_type = ElementType.Beam2D →
      ElementFactory.compute_stiffness_matrix Real.sqrt element material [n1, n2] =
        Except.error (GazelleError.validationError "Beam element has zero length")) := by
  constructor
  · intro htype
    rw [ElementFactory.compute_stiffness_matrix, htype]
    simp only [ElementStiffness.global_stiffness_matrix, Truss2D.local_stiffness_matrix,
      harea, hyoung, ok_bind, Truss2D.transformation_matrix]
    simp
    rw [if_pos hdist]
    rfl
  · intro htype
    rw [ElementFactory.compute_stiffness_matrix, htype]
    simp only [ElementStiffness.global_stiffness_matrix, Beam2D.local_stiffness_matrix,
      harea, hyoung, hinertia, ok_bind, Beam2D.transformation_matrix]
    simp
    rw [if_pos hdist]
    rfl

/-- Witness for C8: two coincident nodes at the origin, for one truss and one
beam element with all required properties present. -/
theorem C8_witness :
    (ElementFactory.compute_stiffness_matrix Real.sqrt
        (⟨0, ElementType.Truss2D, [0, 1], 0,
          ⟨some 1, none, some 1, none, none, none, none⟩⟩ : Element ℝ)
        (⟨0, "m", MaterialType.LinearElastic,
          ⟨some 1, some 0, none, none, none, none, none⟩⟩)
        [⟨0, 0, 0, 0, []⟩, ⟨1, 0, 0, 0, []⟩] =
      Except.error (GazelleError.validationError "Truss element has zero length")) ∧
    (ElementFactory.compute_stiffness_matrix Real.sqrt
        (⟨0, ElementType.Beam2D, [0, 1], 0,
          ⟨some 1, none, some 1, none, none, none, none⟩⟩ : Element ℝ)
        (⟨0, "m", MaterialType.LinearElastic,
          ⟨some 1, some 0, none, none, none, none, none⟩⟩)
        [⟨0, 0, 0, 0, []⟩, ⟨1, 0, 0, 0, []⟩] =
      Except.error (GazelleError.validationError "Beam element has zero length")) := by
  have hdist : Real.sqrt (((0:ℝ) - 0) * ((0:ℝ) - 0) + ((0:ℝ) - 0) * ((0:ℝ) - 0)) <
      1e-12 := by
    rw [show ((0:ℝ) - 0) * ((0:ℝ) - 0) + ((0:ℝ) - 0) * ((0:ℝ) - 0) = 0 by ring,
      Real.sqrt_zero]
    norm_num
  constructor
  · exact (C8_zero_length_element_is_validation_error
      (⟨0, ElementType.Truss2D, [0, 1], 0, ⟨some 1, none, some 1, none, none, none, none⟩⟩)
      (⟨0, "m", MaterialType.LinearElastic, ⟨some 1, some 0, none, none, none, none, none⟩⟩)
      ⟨0, 0, 0, 0, []⟩ ⟨1, 0, 0, 0, []⟩ 1 1 1 rfl rfl rfl hdist).1 rfl
  · exact (C8_zero_length_element_is_validation_error
      (⟨0, ElementType.Beam2D, [0, 1], 0, ⟨some 1, none, some 1, none, none, none, none⟩⟩)
      (⟨0, "m", MaterialType.LinearElastic, ⟨some 1, some 0, none, none, none, none, none⟩⟩)
      ⟨0, 0, 0, 0, []⟩ ⟨1, 0, 0, 0, []⟩ 1 1 1 rfl rfl rfl hdist).2 rfl

/-- C10: for every matrix `A` and vector `b`, the linear-system entry point
`MatrixOps::solve_linear_system` returns a matrix error without consulting
any factorization backend when `A` is not square or when `A`'s row count
differs from `b`'s length (the result is the same for every backend), and
when the dimensions agree it attempts one of the three actual sub-solves
(Cholesky, LU, or iterative). -/
theorem C10_solve_linear_system_dimension_guard (sqrt : F → F) (B B' : Backend F)
    (a : Mat F) (b : List F) :
    (a.nrows ≠ a.ncols →
      MatrixOps.solve_linear_system sqrt B a b =
        Except.error (GazelleError.matrixError
          "Matrix must be square for linear system solving") ∧
      MatrixOps.solve_linear_system sqrt B a b =
        MatrixOps.solve_linear_system sqrt B' a b) ∧
    (a.nrows = a.ncols → a.nrows ≠ b.length →
      MatrixOps.solve_linear_system sqrt B a b =
        Except.error (GazelleError.matrixError
          "Matrix and vector dimensions must match") ∧
      MatrixOps.solve_linear_system sqrt B a b =
        MatrixOps.solve_linear_system sqrt B' a b) ∧
    (a.nrows = a.ncols → a.nrows = b.length →
      MatrixOps.solve_linear_system sqrt B a b = MatrixOps.solve_cholesky B a b ∨
      MatrixOps.solve_linear_system sqrt B a b = MatrixOps.solve_lu B a b ∨
      MatrixOps.solve_linear_system sqrt B a b = MatrixOps.solve_iterative sqrt B a b) := by
  refine ⟨fun h => ?_, fun hsq hlen => ?_, fun hsq hlen => ?_⟩
  · constructor <;> simp [MatrixOps.solve_linear_system, h]
  · have hlen' : a.ncols ≠ b.length := by rw [← hsq]; exact hlen
    constructor <;> simp [MatrixOps.solve_linear_system, hsq, hlen, hlen']
  · have hlen' : a.ncols = b.length := hsq.symm.trans hlen
    by_cases hspd : MatrixOps.is_symmetric a ∧ MatrixOps.is_positive_definite a
    · exact Or.inl (by simp [MatrixOps.solve_linear_system, hsq, hlen, hlen', hspd])
    · by_cases hsize : a.nrows < 1000
      · refine Or.inr (Or.inl ?_)
        rw [MatrixOps.solve_linear_system, if_neg (not_ne_iff.mpr hsq),
          if_neg (not_ne_iff.mpr hlen), if_neg hspd, if_pos hsize]
      · refine Or.inr (Or.inr ?_)
        rw [MatrixOps.solve_linear_system, if_neg (not_ne_iff.mpr hsq),
          if_neg (not_ne_iff.mpr hlen), if_neg hspd, if_neg hsize]

/-- Witness for C10 at a concrete non-square `2 × 3` rational matrix and a
concrete square-but-mismatched case. -/
theorem C10_witness :
    (MatrixOps.solve_linear_system id qBackend (⟨2, 3, [[1, 0, 0], [0, 1, 0]]⟩ : Mat ℚ)
        [1, 2] =
      Except.error (GazelleError.matrixError
        "Matrix must be square for linear system solving")) ∧
    (MatrixOps.solve_linear_system id qBackend (⟨2, 2, [[1, 0], [0, 1]]⟩ : Mat ℚ)
        [1, 2, 3] =
      Except.error (GazelleError.matrixError
        "Matrix and vector dimensions must match")) := by
  constructor
  · exact ((C10_solve_linear_system_dimension_guard id qBackend qBackend
      (⟨2, 3, [[1, 0, 0], [0, 1, 0]]⟩ : Mat ℚ) [1, 2]).1 (by decide)).1
  · exact (((C10_solve_linear_system_dimension_guard id qBackend qBackend
      (⟨2, 2, [[1, 0], [0, 1]]⟩ : Mat ℚ) [1, 2, 3]).2.1 (by decide) (by decide)).1)

/-- Element stiffness of the cantilever fixture's unit truss (length 1,
`E = A = 1`): the code returns `K4`. -/
theorem cant_hk : ElementFactory.compute_stiffness_matrix id
    (⟨0, ElementType.Truss2D, [0, 1], 0, ⟨some 1, none, none, none, none, none, none⟩⟩ : Element ℚ)
    (⟨0, "steel", MaterialType.LinearElastic, ⟨some 1, some 0, none, none, none, none, none⟩⟩)
    [⟨0, 0, 0, 0, []⟩, ⟨1, 1, 0, 0, []⟩] = Except.ok K4 := by
  have htrans : Truss2D.transformation_matrix (id : ℚ → ℚ)
      [(⟨0, 0, 0, 0, []⟩ : Node ℚ), ⟨1, 1, 0, 0, []⟩] =
      Except.ok ⟨4, 4, [[1, 0, 0, 0], [0, 1, 0, 0], [0, 0, 1, 0], [0, 0, 0, 1]]⟩ := by
    simp only [Truss2D.transformation_matrix]
    simp
    norm_num [Mat.zeros, Mat.set, List.replicate]
  have hloc : Truss2D.local_stiffness_matrix
      (⟨0, ElementType.Truss2D, [0, 1], 0,
        ⟨some 1, none, none, none, none, none, none⟩⟩ : Element ℚ)
      (⟨0, "steel", MaterialType.LinearElastic,
        ⟨some 1, some 0, none, none, none, none, none⟩⟩) =
      Except.ok ⟨4, 4, [[1, 0, -1, 0], [0, 0, 0, 0], [-1, 0, 1, 0], [0, 0, 0, 0]]⟩ := by
    simp only [Truss2D.local_stiffness_matrix]
    norm_num [Mat.zeros, Mat.set, List.replicate]
  rw [ElementFactory.compute_stiffness_matrix]
  simp only [ElementStiffness.global_stiffness_matrix, htrans, hloc, ok_bind]
  norm_num [Mat.mul, Mat.transpose, Mat.get, range_four, K4]

/-- Element matrices of the cantilever fixture: one contribution at DOFs
`[0, 1, 2, 3]`. -/
theorem cant_em : StaticSolver.element_matrices id qSolver cantileverModel =
    Except.ok [([0, 1, 2, 3], K4)] := by
  have hn0 : cantileverModel.get_node 0 = Except.ok ⟨0, 0, 0, 0, []⟩ := rfl
  have hn1 : cantileverModel.get_node 1 = Except.ok ⟨1, 1, 0, 0, []⟩ := rfl
  have hels : cantileverModel.elements = [(0, ⟨0, ElementType.Truss2D, [0, 1], 0,
      ⟨some 1, none, none, none, none, none, none⟩⟩)] := rfl
  have hmat : cantileverModel.materials.lookup 0 =
      some ⟨0, "steel", MaterialType.LinearElastic,
        ⟨some 1, some 0, none, none, none, none, none⟩⟩ := rfl
  have hdofs : StaticSolver.map_element_dofs_efficient qSolver cantileverModel
      (⟨0, ElementType.Truss2D, [0, 1], 0, ⟨some 1, none, none, none, none, none, none⟩⟩)
      [⟨0, 0, 0, 0, []⟩, ⟨1, 1, 0, 0, []⟩] = [0, 1, 2, 3] := rfl
  rw [StaticSolver.element_matrices, hels]
  simp only [mapE, hn0, hn1, ok_bind, hmat, cant_hk, hdofs]

/-- Assembled global stiffness of the cantilever fixture. -/
theorem cant_k : StaticSolver.assemble_stiffness_matrix id qSolver cantileverModel =
    Except.ok K4 := by
  have hactive : StaticSolver.calculate_active_dofs qSolver cantileverModel = 4 := rfl
  have hfold : MatrixOps.assemble_global_stiffness [([0, 1, 2, 3], (K4 : Mat ℚ))] 4 = K4 := by
    have hen : ([0, 1, 2, 3] : List ℕ).enum = [(0, 0), (1, 1), (2, 2), (3, 3)] := by decide
    rw [MatrixOps.assemble_global_stiffness, if_neg (by norm_num)]
    rw [List.foldl_cons, List.foldl_nil, MatrixOps.add_element_matrix, hen]
    simp only [List.foldl_cons, List.foldl_nil]
    norm_num [Mat.addAt, Mat.set, Mat.get, Mat.zeros, List.replicate, K4]
  rw [StaticSolver.assemble_stiffness_matrix]
  simp only [cant_em, ok_bind, hactive, hfold]

/-- Assembled load vector of the cantilever fixture: the unit tip force at
node 1 `Ux` lands at `map_nodal_dof`'s index `1·2 + 0 = 2`. -/
theorem cant_f : StaticSolver.assemble_load_vector qSolver cantileverModel =
    Except.ok [0, 0, 1, 0] := by
  have hn1 : cantileverModel.get_node 1 = Except.ok ⟨1, 1, 0, 0, []⟩ := rfl
  have hload : cantileverModel.loads = [Load.nodal_force 0 1 Dof.Ux 1 "tip"] := rfl
  have hactive : StaticSolver.calculate_active_dofs qSolver cantileverModel = 4 := rfl
  have hmap : StaticSolver.map_nodal_dof qSolver 1 Dof.Ux = 2 := rfl
  rw [StaticSolver.assemble_load_vector]
  simp only [hactive, hload, StaticSolver.load_fold, Load.nodal_force, hn1, ok_bind, hmap]
  norm_num [vget, List.replicate]

/-- Constraint application on the cantilever fixture: penalty at DOF 0 plus
automatic pins at the unconnected DOFs 1 and 3. -/
theorem cant_kf : StaticSolver.apply_constraints qSolver cantileverModel K4 [0, 0, 1, 0] =
    Except.ok (Kc, [0, 0, 1, 0]) := by
  have hact : StaticSolver.get_active_dofs_for_constraints qSolver cantileverModel =
      [3, 2, 1, 0] := rfl
  have hcol : StaticSolver.collect_constraints qSolver cantileverModel [3, 2, 1, 0] K4
      cantileverModel.constraints ([], []) = ([0], [0]) := rfl
  have hpen : MatrixOps.apply_constraints (K4 : Mat ℚ) [0, 0, 1, 0] [0] [0] =
      Except.ok (⟨4, 4, [[1 + 1e12, 0, -1, 0], [0, 0, 0, 0], [-1, 0, 1, 0], [0, 0, 0, 0]]⟩,
        [0, 0, 1, 0]) := by
    norm_num [MatrixOps.apply_constraints, MatrixOps.apply_constraints_go,
      K4, Mat.addAt, Mat.set, Mat.get, vget]
  have hauto : StaticSolver.apply_automatic_constraints qSolver
      (⟨4, 4, [[1 + 1e12, 0, -1, 0], [0, 0, 0, 0], [-1, 0, 1, 0], [0, 0, 0, 0]]⟩ : Mat ℚ)
      [0, 0, 1, 0] = Except.ok (Kc, [0, 0, 1, 0]) := by
    rw [StaticSolver.apply_automatic_constraints]
    have h0 : StaticSolver.has_connection
        (⟨4, 4, [[1 + 1e12, 0, -1, 0], [0, 0, 0, 0], [-1, 0, 1, 0], [0, 0, 0, 0]]⟩ : Mat ℚ) 0 :=
      Or.inl (by norm_num [Mat.get])
    have h1 : ¬ StaticSolver.has_connection
        (⟨4, 4, [[1 + 1e12, 0, -1, 0], [0, 0, 0, 0], [-1, 0, 1, 0], [0, 0, 0, 0]]⟩ : Mat ℚ) 1 := by
      norm_num [StaticSolver.has_connection, Mat.get, List.range_succ]
    have h2 : StaticSolver.has_connection
        (⟨4, 4, [[1000000000001, 0, -1, 0], [0, 1000000000000, 0, 0], [-1, 0, 1, 0],
          [0, 0, 0, 0]]⟩ : Mat ℚ) 2 :=
      Or.inl (by norm_num [Mat.get])
    have h3 : ¬ StaticSolver.has_connection
        (⟨4, 4, [[1000000000001, 0, -1, 0], [0, 1000000000000, 0, 0], [-1, 0, 1, 0],
          [0, 0, 0, 0]]⟩ : Mat ℚ) 3 := by
      norm_num [StaticSolver.has_connection, Mat.get, List.range_succ]
    have hr : List.range ((⟨4, 4, [[1 + 1e12, 0, -1, 0], [0, 0, 0, 0], [-1, 0, 1, 0],
        [0, 0, 0, 0]]⟩ : Mat ℚ)).nrows = [0, 1, 2, 3] := rfl
    rw [hr]
    simp only [List.foldl_cons, List.foldl_nil]
    rw [if_neg (not_not_intro h0), if_pos h1]
    norm_num [Mat.set]
    rw [if_pos h2, if_neg h3]
    norm_num [Mat.set, Kc]
  rw [StaticSolver.apply_constraints]
  simp only [hact, hcol, hpen, ok_bind, hauto]

/-- The cantilever fixture passes static validation. -/
theorem cant_val : StaticSolver.validate_model qSolver cantileverModel = Except.ok () := by
  have hm : Material.validate (⟨0, "steel", MaterialType.LinearElastic,
      ⟨some 1, some 0, none, none, none, none, none⟩⟩ : Material ℚ) = Except.ok () := by
    norm_num [Material.validate]
    intro x h
    cases h
  rw [StaticSolver.validate_model]
  simp only [Model.validate, cantileverModel, forExcept, Node.validate, Element.validate,
    hm, ok_bind]
  norm_num [StaticSolver.validate_model, Constraint.prescribed_displacement]

/-- Condition number of the constrained cantilever system under the trivial
backend (singular values `[1, 1]`). -/
theorem cant_cond : MatrixOps.condition_number qBackend Kc = Except.ok 1 := by
  norm_num [MatrixOps.condition_number, qBackend, List.max?, List.min?, List.foldl]

/-- The constrained cantilever matrix is symmetric in the code's sense. -/
theorem cant_sym : MatrixOps.is_symmetric (Kc : Mat ℚ) := by
  refine ⟨rfl, ?_⟩
  intro i hi j hj
  have hi4 : i < 4 := List.mem_range.mp hi
  have hj4 : i + 1 ≤ j ∧ j < i + 1 + (Kc.ncols - (i + 1)) := List.mem_range'_1.mp hj
  have hj4' : j < 4 := by
    refine lt_of_lt_of_le hj4.2 ?_
    show i + 1 + (4 - (i + 1)) ≤ 4
    omega
  interval_cases i <;> interval_cases j <;> norm_num [Kc, Mat.get]

/-- The constrained cantilever matrix passes the diagonal positive-definite
heuristic. -/
theorem cant_pd : MatrixOps.is_positive_definite (Kc : Mat ℚ) := by
  norm_num [MatrixOps.is_positive_definite, Kc, Mat.get, List.range_succ]

/-- The direct solve on the constrained cantilever system dispatches to
Cholesky and returns the trivial backend's vector. -/
theorem cant_lin : MatrixOps.solve_linear_system id qBackend Kc [0, 0, 1, 0] =
    Except.ok [0, 0, 0, 0] := by
  rw [MatrixOps.solve_linear_system]
  rw [if_neg (not_ne_iff.mpr (show Kc.nrows = Kc.ncols from rfl))]
  rw [if_neg (not_ne_iff.mpr (show Kc.nrows = ([0, 0, 1, 0] : List ℚ).length from rfl))]
  rw [if_pos ⟨cant_sym, cant_pd⟩]
  rfl

/-- End-to-end static solve of the cantilever fixture under the trivial
backend. -/
theorem cant_solve : StaticSolver.solve id qBackend qSolver cantileverModel =
    Except.ok ⟨[0, 0, 0, 0], [0, 0, -1, 0], [], 0, AnalysisType.Static,
      ⟨1, 1, true, 1e-6⟩⟩ := by
  have hst : qSolver.settings.solver_type = SolverType.Direct := rfl
  rw [StaticSolver.solve]
  simp only [cant_val, ok_bind, cant_k, cant_f, cant_kf, hst, cant_cond, cant_lin,
    AnalysisResults.new]
  norm_num [subV, Mat.mulVec, Mat.get, vget, dotV, MatrixOps.residual_norm,
    MatrixOps.normV, Kc, range_four, List.range_succ, qSolver, AnalysisSettings.default]

/-- The constrained system `(K, f)` of the cantilever fixture. -/
theorem cant_cs : StaticSolver.constrained_system id qSolver cantileverModel =
    Except.ok (Kc, [0, 0, 1, 0]) := by
  rw [StaticSolver.constrained_system]
  simp only [cant_k, ok_bind, cant_f, cant_kf]

/-- Condition number under the second backend (same singular values). -/
theorem cant2_cond : MatrixOps.condition_number qBackend2 Kc = Except.ok 1 := by
  norm_num [MatrixOps.condition_number, qBackend2, List.max?, List.min?, List.foldl]

/-- The direct solve under the second backend returns its nonzero vector. -/
theorem cant2_lin : MatrixOps.solve_linear_system id qBackend2 Kc [0, 0, 1, 0] =
    Except.ok [1, 0, 0, 0] := by
  rw [MatrixOps.solve_linear_system]
  rw [if_neg (not_ne_iff.mpr (show Kc.nrows = Kc.ncols from rfl))]
  rw [if_neg (not_ne_iff.mpr (show Kc.nrows = ([0, 0, 1, 0] : List ℚ).length from rfl))]
  rw [if_pos ⟨cant_sym, cant_pd⟩]
  rfl

/-- End-to-end static solve of the cantilever fixture under the second
backend: nonzero displacements, stored strain energy still `0`. -/
theorem cant2_solve : StaticSolver.solve id qBackend2 qSolver cantileverModel =
    Except.ok ⟨[1, 0, 0, 0], [1000000000001, 0, -2, 0], [], 0, AnalysisType.Static,
      ⟨1, 1000000000002000000000005, true, 1e-6⟩⟩ := by
  have hst : qSolver.settings.solver_type = SolverType.Direct := rfl
  rw [StaticSolver.solve]
  simp only [cant_val, ok_bind, cant_k, cant_f, cant_kf, hst, cant2_cond, cant2_lin,
    AnalysisResults.new]
  norm_num [subV, Mat.mulVec, Mat.get, vget, dotV, MatrixOps.residual_norm,
    MatrixOps.normV, Kc, range_four, List.range_succ, qSolver, AnalysisSettings.default]

/-- The modal fixture passes modal validation for every density `d`. -/
theorem modal_val (ms : ModalSolver ℝ) (d : ℝ) :
    ModalSolver.validate_model ms (modalModel d) = Except.ok () := rfl

/-- Element stiffness of the modal fixture's unit truss is `K4`, independent
of the density `d`. -/
theorem modal_hk (d : ℝ) : ElementFactory.compute_stiffness_matrix Real.sqrt
    (⟨0, ElementType.Truss2D, [0, 1], 0, ⟨some 1, none, none, none, none, none, none⟩⟩ : Element ℝ)
    (⟨0, "steel", MaterialType.LinearElastic, ⟨some 1, some 0, some d, none, none, none, none⟩⟩)
    [⟨0, 0, 0, 0, []⟩, ⟨1, 1, 0, 0, []⟩] = Except.ok K4 := by
  have htrans : Truss2D.transformation_matrix Real.sqrt
      [(⟨0, 0, 0, 0, []⟩ : Node ℝ), ⟨1, 1, 0, 0, []⟩] =
      Except.ok ⟨4, 4, [[1, 0, 0, 0], [0, 1, 0, 0], [0, 0, 1, 0], [0, 0, 0, 1]]⟩ := by
    simp only [Truss2D.transformation_matrix]
    simp
    rw [if_neg (by norm_num : ¬ (1:ℝ) < 1e-12)]
    norm_num [Mat.zeros, Mat.set, List.replicate]
  have hloc : Truss2D.local_stiffness_matrix
      (⟨0, ElementType.Truss2D, [0, 1], 0,
        ⟨some 1, none, none, none, none, none, none⟩⟩ : Element ℝ)
      (⟨0, "steel", MaterialType.LinearElastic,
        ⟨some 1, some 0, some d, none, none, none, none⟩⟩) =
      Except.ok ⟨4, 4, [[1, 0, -1, 0], [0, 0, 0, 0], [-1, 0, 1, 0], [0, 0, 0, 0]]⟩ := by
    simp only [Truss2D.local_stiffness_matrix]
    norm_num [Mat.zeros, Mat.set, List.replicate]
  rw [ElementFactory.compute_stiffness_matrix]
  simp only [ElementStiffness.global_stiffness_matrix, htrans, hloc, ok_bind]
  norm_num [Mat.mul, Mat.transpose, Mat.get, range_four, K4]

/-- Assembled stiffness of the modal fixture is `K4` for every solver and
every density `d`. -/
theorem modal_k (s : StaticSolver ℝ) (d : ℝ) :
    StaticSolver.assemble_stiffness_matrix Real.sqrt s (modalModel d) = Except.ok K4 := by
  have hn0 : (modalModel d).get_node 0 = Except.ok ⟨0, 0, 0, 0, []⟩ := rfl
  have hn1 : (modalModel d).get_node 1 = Except.ok ⟨1, 1, 0, 0, []⟩ := rfl
  have hels : (modalModel d).elements = [(0, ⟨0, ElementType.Truss2D, [0, 1], 0,
      ⟨some 1, none, none, none, none, none, none⟩⟩)] := rfl
  have hmat : (modalModel d).materials.lookup 0 =
      some ⟨0, "steel", MaterialType.LinearElastic,
        ⟨some 1, some 0, some d, none, none, none, none⟩⟩ := rfl
  have hdofs : StaticSolver.map_element_dofs_efficient s (modalModel d)
      (⟨0, ElementType.Truss2D, [0, 1], 0, ⟨some 1, none, none, none, none, none, none⟩⟩)
      [⟨0, 0, 0, 0, []⟩, ⟨1, 1, 0, 0, []⟩] = [0, 1, 2, 3] := rfl
  have hem : StaticSolver.element_matrices Real.sqrt s (modalModel d) =
      Except.ok [([0, 1, 2, 3], K4)] := by
    rw [StaticSolver.element_matrices, hels]
    simp only [mapE, hn0, hn1, ok_bind, hmat, modal_hk, hdofs]
  have hactive : StaticSolver.calculate_active_dofs s (modalModel d) = 4 := rfl
  have hfold : MatrixOps.assemble_global_stiffness [([0, 1, 2, 3], (K4 : Mat ℝ))] 4 = K4 := by
    have hen : ([0, 1, 2, 3] : List ℕ).enum = [(0, 0), (1, 1), (2, 2), (3, 3)] := by decide
    rw [MatrixOps.assemble_global_stiffness, if_neg (by norm_num)]
    rw [List.foldl_cons, List.foldl_nil, MatrixOps.add_element_matrix, hen]
    simp only [List.foldl_cons, List.foldl_nil]
    norm_num [Mat.addAt, Mat.set, Mat.get, Mat.zeros, List.replicate, K4]
  rw [StaticSolver.assemble_stiffness_matrix]
  simp only [hem, ok_bind, hactive, hfold]

/-- Element mass matrix of the modal fixture's unit truss: `Mel d`. -/
theorem modal_mel (d : ℝ) : Truss2D.mass_matrix Real.sqrt
    (⟨0, ElementType.Truss2D, [0, 1], 0, ⟨some 1, none, none, none, none, none, none⟩⟩ : Element ℝ)
    (⟨0, "steel", MaterialType.LinearElastic, ⟨some 1, some 0, some d, none, none, none, none⟩⟩)
    [⟨0, 0, 0, 0, []⟩, ⟨1, 1, 0, 0, []⟩] =
    Except.ok ⟨4, 4, [[d / 3, 0, d / 6, 0], [0, d / 3, 0, d / 6],
      [d / 6, 0, d / 3, 0], [0, d / 6, 0, d / 3]]⟩ := by
  simp only [Truss2D.mass_matrix]
  norm_num [Mat.zeros, Mat.set, List.replicate]

/-- Assembled mass matrix of the modal fixture: `Mel d` scattered to the
traditional DOFs `[0, 1, 6, 7]` of a 12-DOF vector. -/
theorem modal_mass (ms : ModalSolver ℝ) (d : ℝ) :
    ModalSolver.assemble_mass_matrix Real.sqrt ms (modalModel d) =
    Except.ok (MatrixOps.assemble_global_stiffness [([0, 1, 6, 7], Mel d)] 12) := by
  have hn0 : (modalModel d).get_node 0 = Except.ok ⟨0, 0, 0, 0, []⟩ := rfl
  have hn1 : (modalModel d).get_node 1 = Except.ok ⟨1, 1, 0, 0, []⟩ := rfl
  have hels : (modalModel d).elements = [(0, ⟨0, ElementType.Truss2D, [0, 1], 0,
      ⟨some 1, none, none, none, none, none, none⟩⟩)] := rfl
  have hmat : (modalModel d).materials.lookup 0 =
      some ⟨0, "steel", MaterialType.LinearElastic,
        ⟨some 1, some 0, some d, none, none, none, none⟩⟩ := rfl
  have hm : ElementFactory.compute_mass_matrix Real.sqrt
      (⟨0, ElementType.Truss2D, [0, 1], 0,
        ⟨some 1, none, none, none, none, none, none⟩⟩ : Element ℝ)
      (⟨0, "steel", MaterialType.LinearElastic,
        ⟨some 1, some 0, some d, none, none, none, none⟩⟩)
      [⟨0, 0, 0, 0, []⟩, ⟨1, 1, 0, 0, []⟩] = Except.ok (Mel d) := modal_mel d
  have hdofs : ModalSolver.map_element_dofs ms
      (⟨0, ElementType.Truss2D, [0, 1], 0, ⟨some 1, none, none, none, none, none, none⟩⟩)
      [⟨0, 0, 0, 0, []⟩, ⟨1, 1, 0, 0, []⟩] = [0, 1, 6, 7] := rfl
  have htot : (modalModel d).total_dofs = 12 := rfl
  rw [ModalSolver.assemble_mass_matrix]
  simp only [hels, htot, mapE, hn0, hn1, ok_bind, hmat, hm, hdofs]

/-- Entry `(0, 0)` of the assembled mass matrix is `d / 3`, so assembled
masses of different densities differ. -/
theorem modal_mass_get (d : ℝ) :
    (MatrixOps.assemble_global_stiffness [([0, 1, 6, 7], Mel d)] 12).get 0 0 = d / 3 := by
  rw [assemble_global_stiffness_eq_fold]
  simp only [List.foldl_cons, List.foldl_nil]
  rw [add_element_matrix_get _ _ _ (Mat.WF_zeros 12 12)]
  have hen : ([0, 1, 6, 7] : List ℕ).enum = [(0, 0), (1, 1), (2, 6), (3, 7)] := by decide
  rw [hen]
  norm_num [Mat.get_zeros, Mel, Mat.get, Mat.zeros]

/-- C2 (code evidence): on the all-2-D beam fixture the compact scheme is in
force (`is_2d_problem`, `max_dofs_per_node = 3`) and element assembly numbers
node 1's DOFs as `[3, 4, 5]`, but `StaticSolver::map_nodal_dof` — the mapping
used for loads and nodal constraints — sends `(node 1, Ux)` to `1·2 + 0 = 2`,
not to the compact index `1·3 + 0 = 3`: the nodal mapping never lands in node
1's element DOF block, so loads and constraints on node 1 address another
node's entries. -/
theorem C2_nodal_dof_mapping_breaks_compact_scheme :
    StaticSolver.is_2d_problem qSolver beamModel = true ∧
    StaticSolver.max_dofs_per_node qSolver beamModel = 3 ∧
    StaticSolver.map_element_dofs_efficient qSolver beamModel
      (⟨0, ElementType.Beam2D, [0, 1], 0, ⟨some 1, none, some 1, none, none, none, none⟩⟩)
      [⟨0, 0, 0, 0, []⟩, ⟨1, 1, 0, 0, []⟩] = [0, 1, 2, 3, 4, 5] ∧
    StaticSolver.map_nodal_dof qSolver 1 Dof.Ux = 2 ∧
    StaticSolver.map_nodal_dof qSolver 1 Dof.Ux ∉ [3, 4, 5] :=
  ⟨rfl, rfl, rfl, rfl, by decide⟩

/-- C3: whenever `StaticSolver::solve` succeeds, the stored reaction vector
equals `K·u − f` computed from the constrained system `(K, f)` (the pair
built by assembling stiffness and loads and applying constraints) and the
stored displacement vector `u` — exactly, for any backend and solver family. -/
theorem C3_reactions_are_K_u_minus_f_of_constrained_system {F : Type} [LinearOrderedField F]
    (sq : F → F) (B : Backend F) (s : StaticSolver F) (model : Model F)
    (kf : Mat F × List F) (res : AnalysisResults F)
    (hcs : StaticSolver.constrained_system sq s model = Except.ok kf)
    (hres : StaticSolver.solve sq B s model = Except.ok res) :
    res.reactions = subV (kf.1.mulVec res.displacements) kf.2 := by
  rw [StaticSolver.solve] at hres
  obtain ⟨u, hu, hres⟩ := bind_eq_ok_iff.mp hres
  obtain ⟨k, hk, hres⟩ := bind_eq_ok_iff.mp hres
  obtain ⟨f, hf, hres⟩ := bind_eq_ok_iff.mp hres
  obtain ⟨kf2, hkf2, hres⟩ := bind_eq_ok_iff.mp hres
  obtain ⟨cn, hcn, hres⟩ := bind_eq_ok_iff.mp hres
  rw [StaticSolver.constrained_system] at hcs
  obtain ⟨k', hk', hcs⟩ := bind_eq_ok_iff.mp hcs
  obtain ⟨f', hf', hcs⟩ := bind_eq_ok_iff.mp hcs
  rw [hk'] at hk
  cases hk
  rw [hf'] at hf
  cases hf
  rw [hcs] at hkf2
  cases hkf2
  cases hst : s.settings.solver_type <;>
    simp only [hst] at hres
  all_goals
    obtain ⟨disp, hdisp, hres⟩ := bind_eq_ok_iff.mp hres
  all_goals
    simp only [Except.ok.injEq] at hres
  all_goals
    subst hres
  all_goals
    simp [AnalysisResults.new]

/-- Witness for C3 at the cantilever run: the stored reactions `[0, 0, -1, 0]`
are `Kc·u − f` for the constrained system. -/
theorem C3_witness :
    (AnalysisResults.mk [0, 0, 0, 0] [0, 0, -1, 0] [] 0 AnalysisType.Static
      ⟨1, 1, true, 1e-6⟩ : AnalysisResults ℚ).reactions =
    subV (Kc.mulVec [0, 0, 0, 0]) [0, 0, 1, 0] :=
  C3_reactions_are_K_u_minus_f_of_constrained_system id qBackend qSolver cantileverModel (Kc, [0, 0, 1, 0]) _ cant_cs cant_solve

/-- C7 (code evidence): the strain energy stored in every successful static
solve is the literal `0` that `AnalysisResults::new` writes — `solve` never
calls `MatrixOps::strain_energy`, so the stored value is not `½·uᵀ·K·u`
whenever the latter is nonzero. -/
theorem C7_stored_strain_energy_always_zero {F : Type} [LinearOrderedField F]
    (sq : F → F) (B : Backend F) (s : StaticSolver F) (model : Model F)
    (res : AnalysisResults F)
    (hres : StaticSolver.solve sq B s model = Except.ok res) :
    res.strain_energy = 0 := by
  rw [StaticSolver.solve] at hres
  obtain ⟨u, hu, hres⟩ := bind_eq_ok_iff.mp hres
  obtain ⟨k, hk, hres⟩ := bind_eq_ok_iff.mp hres
  obtain ⟨f, hf, hres⟩ := bind_eq_ok_iff.mp hres
  obtain ⟨kf2, hkf2, hres⟩ := bind_eq_ok_iff.mp hres
  obtain ⟨cn, hcn, hres⟩ := bind_eq_ok_iff.mp hres
  cases hst : s.settings.solver_type <;>
    simp only [hst] at hres
  all_goals
    obtain ⟨disp, hdisp, hres⟩ := bind_eq_ok_iff.mp hres
  all_goals
    simp only [Except.ok.injEq] at hres
  all_goals
    subst hres
  all_goals
    simp [AnalysisResults.new]

/-- Witness for C7 at the second-backend cantilever run: the stored strain
energy is `0` although `½·uᵀ·Kc·u` of the same run is nonzero. -/
theorem C7_witness :
    (AnalysisResults.mk [1, 0, 0, 0] [1000000000001, 0, -2, 0] [] 0 AnalysisType.Static
      ⟨1, 1000000000002000000000005, true, 1e-6⟩ : AnalysisResults ℚ).strain_energy = 0 ∧
    MatrixOps.strain_energy (Kc : Mat ℚ) [1, 0, 0, 0] ≠ 0 := by
  constructor
  · exact C7_stored_strain_energy_always_zero id qBackend2 qSolver cantileverModel _ cant2_solve
  · norm_num [MatrixOps.strain_energy, Kc, dotV, Mat.mulVec, Mat.get, vget,
      range_four, List.range_succ]

/-- C6 (code evidence): the modal solver's result is identical for two models
differing only in material density, even though their assembled mass matrices
differ — `ModalSolver::solve` binds the mass matrix to `_m` and then solves
the standard (not generalized) eigenproblem on `K` alone, so `M` never enters
`K·φ = λ·M·φ`. -/
theorem C6_modal_solve_ignores_assembled_mass (B : Backend ℝ) (ms : ModalSolver ℝ) (d₁ d₂ : ℝ) (hne : d₁ ≠ d₂) :
    ModalSolver.solve Real.sqrt Real.pi B ms (modalModel d₁) =
      ModalSolver.solve Real.sqrt Real.pi B ms (modalModel d₂) ∧
    ModalSolver.assemble_mass_matrix Real.sqrt ms (modalModel d₁) ≠
      ModalSolver.assemble_mass_matrix Real.sqrt ms (modalModel d₂) := by
  constructor
  · rw [ModalSolver.solve, ModalSolver.solve]
    simp only [modal_val, ok_bind, modal_k, modal_mass]
  · intro heq
    rw [modal_mass, modal_mass] at heq
    simp only [Except.ok.injEq] at heq
    have h00 := congrArg (fun m => Mat.get m 0 0) heq
    simp only at h00
    rw [modal_mass_get d₁, modal_mass_get d₂] at h00
    exact hne (by linarith)

/-- Witness for C6 at densities `1 ≠ 2`: same modal result, different
assembled mass matrices. -/
theorem C6_witness :
    ModalSolver.solve Real.sqrt Real.pi
        ⟨fun _ => some (fun _ => [0, 0, 0, 0]), fun _ _ => none, fun _ => [1, 1],
         fun _ => ([], Mat.zeros 0 0), fun _ => []⟩
        ⟨AnalysisSettings.default, 2⟩ (modalModel 1) =
      ModalSolver.solve Real.sqrt Real.pi
        ⟨fun _ => some (fun _ => [0, 0, 0, 0]), fun _ _ => none, fun _ => [1, 1],
         fun _ => ([], Mat.zeros 0 0), fun _ => []⟩
        ⟨AnalysisSettings.default, 2⟩ (modalModel 2) ∧
    ModalSolver.assemble_mass_matrix Real.sqrt ⟨AnalysisSettings.default, 2⟩ (modalModel 1) ≠
      ModalSolver.assemble_mass_matrix Real.sqrt ⟨AnalysisSettings.default, 2⟩ (modalModel 2) :=
  C6_modal_solve_ignores_assembled_mass
    ⟨fun _ => some (fun _ => [0, 0, 0, 0]), fun _ _ => none, fun _ => [1, 1],
     fun _ => ([], Mat.zeros 0 0), fun _ => []⟩
    ⟨AnalysisSettings.default, 2⟩ 1 2 (by norm_num)

end Gazelle
